import Mathlib

/-!
Verification development for the `medical_world_agent` repository: a shallow
embedding in Lean 4 of the session registry, the stochastic world model, the
diagnostic / safety subagents, the guideline retriever and the chat turn
pipeline, together with theorems settling the frozen claims about them.

Modelling conventions:
* Python `dict` values are embedded as insertion-ordered association lists
  (`List (String × α)`); assignment updates in place, else appends, matching
  CPython dict semantics.
* Python `float` values are embedded as `ℚ`.  The only float operations the
  embedded code performs are comparisons, `max`/`min` clamps, division and
  rounding to three decimals, all of which are exact on the values involved;
  `round` is modelled as rational round-half-up.
* The Mersenne-Twister generator `random.Random(seed)` is embedded abstractly
  as a family `fam : Option Nat → Nat → ℚ` mapping a seed to its stream of
  `random()` draws (each in `[0,1)`, stated as a hypothesis where needed),
  together with a cursor.  `random.choice` consumes one draw and selects an
  index.  All theorems about noise hold for every such family, so nothing
  depends on the concrete generator.
* Wall-clock timestamps (ISO strings of `datetime.now`) are embedded as `ℚ`
  instants passed explicitly to every registry operation.
-/

/-- Python `str.lower`: ASCII letters are lowered; the CJK characters used by
the program have no case. -/
def pyLower (s : String) : String :=
  String.mk (s.toList.map Char.toLower)

/-- Python `str.strip`: remove surrounding whitespace (the whitespace actually
occurring in this program's inputs: space, tab, CR, LF). -/
def pyStrip (s : String) : String :=
  String.mk (((s.toList.dropWhile Char.isWhitespace).reverse.dropWhile
    Char.isWhitespace).reverse)

/-- Contiguous-infix test on character lists. -/
def listIsInfix (needle : List Char) : List Char → Bool
  | [] => needle.isEmpty
  | c :: rest => List.isPrefixOf needle (c :: rest) || listIsInfix needle rest

/-- Python `needle in hay` on strings: contiguous substring test (true for the
empty needle). -/
def pyIn (needle hay : String) : Bool :=
  listIsInfix needle.toList hay.toList

/-- Python truthiness of a string: nonempty. -/
def pyTruthy (s : String) : Bool :=
  s ≠ ""

/-- First value bound to `k`, as `dict.get(k)`. -/
def dictGet? {α : Type} (l : List (String × α)) (k : String) : Option α :=
  match l with
  | [] => none
  | (k', v) :: rest => if k' = k then some v else dictGet? rest k

/-- `dict.get(k, d)`. -/
def dictGetD {α : Type} (l : List (String × α)) (k : String) (d : α) : α :=
  (dictGet? l k).getD d

/-- `k in dict`. -/
def dictContains {α : Type} (l : List (String × α)) (k : String) : Bool :=
  (dictGet? l k).isSome

/-- `dict[k] = v`: replace in place if the key is present, else append, as
CPython insertion-ordered dicts do. -/
def dictInsert {α : Type} (l : List (String × α)) (k : String) (v : α) :
    List (String × α) :=
  match l with
  | [] => [(k, v)]
  | (k', v') :: rest =>
      if k' = k then (k, v) :: rest else (k', v') :: dictInsert rest k v

/-- `dict.keys()` in insertion order. -/
def dictKeys {α : Type} (l : List (String × α)) : List String :=
  l.map (fun p => p.1)

/-- `" ".join(xs)`. -/
def joinSpace (xs : List String) : String :=
  String.intercalate " " xs

/-- Code-point comparison of strings, as Python `<=` on `str`. -/
def charListLe : List Char → List Char → Bool
  | [], _ => true
  | _ :: _, [] => false
  | a :: as, b :: bs =>
      if a.val < b.val then true
      else if b.val < a.val then false
      else charListLe as bs

def strLe (a b : String) : Bool :=
  charListLe a.toList b.toList

def insertStrAsc (x : String) : List String → List String
  | [] => [x]
  | y :: ys => if strLe x y then x :: y :: ys else y :: insertStrAsc x ys

/-- Python `sorted` on a list of strings. -/
def sortStrings : List String → List String
  | [] => []
  | x :: xs => insertStrAsc x (sortStrings xs)

/-- Clamp to `[0,1]`, as `max(0.0, min(1.0, x))`. -/
def clamp01 (x : ℚ) : ℚ :=
  max 0 (min 1 x)

/-- `round(x, 3)` modelled as rational round-half-up to three decimals. -/
def round3 (q : ℚ) : ℚ :=
  (round (q * 1000) : ℤ) / 1000

def pad3 (n : Nat) : String :=
  if n < 10 then "00" ++ toString n
  else if n < 100 then "0" ++ toString n
  else toString n

/-- Python `f"{x:.3f}"` for the nonnegative values the program formats. -/
def fmt3 (q : ℚ) : String :=
  let n := (round (q * 1000)).toNat
  toString (n / 1000) ++ "." ++ pad3 (n % 1000)

/-- `max(l, default=d)` for confidences, all of which are nonnegative. -/
def maxD (l : List ℚ) (d : ℚ) : ℚ :=
  match l with
  | [] => d
  | x :: xs => xs.foldl max x

/-! ## models.py -/

inductive ToolKind where
  | ask_question
  | order_test
  | recommend_plan
deriving DecidableEq, Repr

/-- `ToolKind.value` (the `str` Enum payload). -/
def ToolKind.value : ToolKind → String
  | .ask_question => "ask_question"
  | .order_test => "order_test"
  | .recommend_plan => "recommend_plan"

/-- `ToolAction`: kind plus the payload entry the world model reads
(`payload.get("question"/"test"/"diagnosis", "")` coerced through `str`). -/
inductive ToolAction where
  | ask_question (question : String)
  | order_test (test : String)
  | recommend_plan (diagnosis : String)
deriving DecidableEq, Repr

def ToolAction.kind : ToolAction → ToolKind
  | .ask_question _ => .ask_question
  | .order_test _ => .order_test
  | .recommend_plan _ => .recommend_plan

/-- `ToolResult`: the metadata dict is embedded by its two possible entries. -/
structure ToolResult where
  kind : ToolKind
  observation : String
  noisy : Option Bool
  available_tests : Option (List String)
deriving DecidableEq, Repr

structure PatientCase where
  case_id : String
  demographics : List (String × String)
  symptoms : List String
  qa : List (String × String)
  tests : List (String × String)
  final_diagnosis : String
deriving DecidableEq, Repr

structure PatientState where
  case_id : String
  demographics : List (String × String)
  symptoms : List String
  known_facts : List (String × String)
  completed_tests : List (String × String)
  history : List String
deriving DecidableEq, Repr

/-! ## The pseudo-random generator -/

/-- Abstract embedding of `random.Random`: a family of draw streams indexed by
the seed, plus a cursor into the current stream. -/
structure PyRandom where
  fam : Option Nat → Nat → ℚ
  seed : Option Nat
  idx : Nat

/-- `random()` — one draw, cursor advances. -/
def PyRandom.random (r : PyRandom) : ℚ × PyRandom :=
  (r.fam r.seed r.idx, { r with idx := r.idx + 1 })

/-- `seed(s)` — rebind to the stream of `s` and restart it. -/
def PyRandom.reseed (r : PyRandom) (s : Nat) : PyRandom :=
  { r with seed := some s, idx := 0 }

/-- Index selected by `random.choice` from one draw `d ∈ [0,1)`. -/
def choiceIdx (d : ℚ) (n : Nat) : Nat :=
  min (max 0 ⌊d * n⌋).toNat (n - 1)

/-- `choice(l)` — consumes one draw. -/
def PyRandom.choice (r : PyRandom) (l : List String) : String × PyRandom :=
  let p := r.random
  (l.getD (choiceIdx p.1 l.length) "", p.2)

/-! ## world_model.py -/

/-- The `noise_profile` dict: optional `default` plus the five override
tables (field names spell out the Python keys `default`, `case`, `test`,
`qa`, `case_test`, `case_qa`). -/
structure NoiseProfile where
  defaultNoise : Option ℚ
  caseNoise : List (String × ℚ)
  testNoise : List (String × ℚ)
  qaNoise : List (String × ℚ)
  caseTestNoise : List (String × List (String × ℚ))
  caseQaNoise : List (String × List (String × ℚ))

def NoiseProfile.empty : NoiseProfile :=
  ⟨none, [], [], [], [], []⟩

/-- `MedicalWorldModel._build_cases()`. -/
def build_cases : List (String × PatientCase) :=
  [("chest_pain_001",
    { case_id := "chest_pain_001"
      demographics := [("age", "62"), ("sex", "male")]
      symptoms := ["胸痛", "呼吸急促", "出汗"]
      qa := [("onset", "胸痛突发2小时，向左臂放射。"),
             ("risk_factor", "吸烟30年，高血压病史。"),
             ("allergy", "无明确药物过敏史。")]
      tests := [("ecg", "心电图提示II、III、aVF导联ST段抬高。"),
                ("troponin", "肌钙蛋白显著升高。"),
                ("chest_xray", "未见明显肺部感染灶。")]
      final_diagnosis := "急性下壁心肌梗死" }),
   ("resp_001",
    { case_id := "resp_001"
      demographics := [("age", "41"), ("sex", "female")]
      symptoms := ["发热", "咳嗽", "咳痰"]
      qa := [("onset", "发热咳嗽3天，夜间加重。"),
             ("risk_factor", "近期受凉，无慢性肺病。"),
             ("allergy", "青霉素过敏。")]
      tests := [("cbc", "白细胞12.8x10^9/L，中性粒细胞比例升高。"),
                ("crp", "CRP升高。"),
                ("chest_xray", "右下肺片状浸润影。")]
      final_diagnosis := "社区获得性肺炎" }),
   ("abd_001",
    { case_id := "abd_001"
      demographics := [("age", "25"), ("sex", "male")]
      symptoms := ["右下腹痛", "恶心", "低热"]
      qa := [("onset", "腹痛先脐周后转移至右下腹，约18小时。"),
             ("risk_factor", "无特殊既往史。"),
             ("allergy", "无。")]
      tests := [("cbc", "白细胞及中性粒细胞升高。"),
                ("abdominal_ultrasound", "阑尾增粗，周围渗出。"),
                ("urinalysis", "尿常规无感染证据。")]
      final_diagnosis := "急性阑尾炎" }),
   ("uti_001",
    { case_id := "uti_001"
      demographics := [("age", "33"), ("sex", "female")]
      symptoms := ["尿频", "尿痛", "低热"]
      qa := [("onset", "尿频尿痛2天，伴轻度发热。"),
             ("risk_factor", "近期饮水较少，无已知肾病史。"),
             ("allergy", "无明确药物过敏史。")]
      tests := [("urinalysis", "尿常规白细胞增多，亚硝酸盐阳性。"),
                ("urine_culture", "尿培养提示大肠埃希菌生长。"),
                ("cbc", "白细胞轻度升高。")]
      final_diagnosis := "急性下尿路感染" }),
   ("stroke_001",
    { case_id := "stroke_001"
      demographics := [("age", "68"), ("sex", "female")]
      symptoms := ["言语不清", "右侧肢体无力", "口角歪斜"]
      qa := [("onset", "症状突发约1小时，进行性加重。"),
             ("risk_factor", "房颤和高血压病史。"),
             ("allergy", "无。")]
      tests := [("head_ct", "头颅CT未见明显出血灶。"),
                ("nihss", "NIHSS评分8分。"),
                ("ecg", "心电图示房颤。")]
      final_diagnosis := "急性缺血性脑卒中" })]

/-- `MedicalWorldModel._qa_variants()`. -/
def qa_variants : List (String × List (String × List String)) :=
  [("chest_pain_001",
    [("onset", ["胸痛约2小时前突发，伴左臂放射痛。"]),
     ("risk_factor", ["有长期吸烟和高血压病史。"])]),
   ("resp_001", [("onset", ["咳嗽发热3天，夜间更明显。"])]),
   ("abd_001", [("onset", ["腹痛由脐周转移到右下腹，持续近一天。"])]),
   ("uti_001", [("onset", ["排尿疼痛伴尿频约2天，夜间明显。"])]),
   ("stroke_001", [("onset", ["约1小时前突发言语不清和右侧肢体无力。"])])]

/-- `MedicalWorldModel._test_variants()`. -/
def test_variants : List (String × List (String × List String)) :=
  [("chest_pain_001",
    [("ecg", ["心电图示II、III、aVF导联明显ST抬高，考虑急性缺血改变。"]),
     ("troponin", ["肌钙蛋白升高，提示心肌损伤证据。"])]),
   ("resp_001",
    [("cbc", ["血常规示白细胞增高并以中性粒细胞为主。"]),
     ("chest_xray", ["胸片见右下肺斑片状浸润，倾向感染。"])]),
   ("abd_001",
    [("abdominal_ultrasound", ["腹部超声示阑尾壁增厚并周围炎性渗出。"])]),
   ("uti_001",
    [("urinalysis", ["尿常规示白细胞和亚硝酸盐阳性。"]),
     ("urine_culture", ["尿培养检出大肠埃希菌，菌落计数显著。"])]),
   ("stroke_001",
    [("head_ct", ["头颅CT未见明显出血征象。"]),
     ("nihss", ["NIHSS评分8分，提示中度神经功能缺损。"])])]

/-- The alias table inside `_answer_question`. -/
def alias_map : List (String × String) :=
  [("起病时间", "onset"), ("onset", "onset"),
   ("过敏史", "allergy"), ("allergy", "allergy"),
   ("危险因素", "risk_factor"), ("risk", "risk_factor")]

structure MedicalWorldModel where
  cases : List (String × PatientCase)
  state : Option PatientState
  currentCase : Option PatientCase
  rng : PyRandom
  observation_noise : ℚ
  noise_profile : NoiseProfile

/-- `MedicalWorldModel.__init__`. -/
def mkMedicalWorldModel (fam : Option Nat → Nat → ℚ) (random_seed : Option Nat)
    (observation_noise : ℚ) (noise_profile : NoiseProfile) : MedicalWorldModel :=
  { cases := build_cases
    state := none
    currentCase := none
    rng := { fam := fam, seed := random_seed, idx := 0 }
    observation_noise := max 0 (min 1 observation_noise)
    noise_profile := noise_profile }

/-- `MedicalWorldModel.reset`. -/
def MedicalWorldModel.reset (wm : MedicalWorldModel) (case_id : String)
    (random_seed : Option Nat) : Except String MedicalWorldModel :=
  match dictGet? wm.cases case_id with
  | none => .error ("Unknown case_id: " ++ case_id)
  | some c =>
      let rng := match random_seed with
        | some s => wm.rng.reseed s
        | none => wm.rng
      let st : PatientState :=
        { case_id := c.case_id
          demographics := c.demographics
          symptoms := c.symptoms
          known_facts := []
          completed_tests := []
          history := ["session_started:" ++ case_id] }
      .ok { wm with currentCase := some c, state := some st, rng := rng }

/-- `MedicalWorldModel._effective_noise`. -/
def MedicalWorldModel.effective_noise (wm : MedicalWorldModel)
    (signal_type signal_name : String) : ℚ :=
  let p := wm.noise_profile
  let n1 := match p.defaultNoise with
    | some v => v
    | none => wm.observation_noise
  let n4 := match wm.currentCase with
    | none => n1
    | some c =>
        let n2 := match dictGet? p.caseNoise c.case_id with
          | some v => v
          | none => n1
        let n3 :=
          if signal_type = "test" && signal_name ≠ "" then
            let a := match dictGet? p.testNoise signal_name with
              | some v => v
              | none => n2
            match (dictGet? p.caseTestNoise c.case_id).bind
                (fun m => dictGet? m signal_name) with
            | some v => v
            | none => a
          else n2
        if signal_type = "qa" && signal_name ≠ "" then
          let a := match dictGet? p.qaNoise signal_name with
            | some v => v
            | none => n3
          match (dictGet? p.caseQaNoise c.case_id).bind
              (fun m => dictGet? m signal_name) with
          | some v => v
          | none => a
        else n3
  max 0 (min 1 n4)

/-- `MedicalWorldModel._sample_variant_with_scope`.  `random()` is consumed
only when the variant pool is nonempty (Python short-circuit), and `choice`
consumes one further draw on the noisy branch. -/
def MedicalWorldModel.sample_variant_with_scope (wm : MedicalWorldModel)
    (canonical : String) (alternatives : List String)
    (signal_type signal_name : String) : (String × Bool) × PyRandom :=
  if alternatives.isEmpty then ((canonical, false), wm.rng)
  else
    let p := wm.rng.random
    if p.1 < wm.effective_noise signal_type signal_name then
      let q := p.2.choice alternatives
      ((q.1, true), q.2)
    else ((canonical, false), p.2)

/-- `MedicalWorldModel._answer_question` (the question is already stripped and
lowered by `step`). -/
def MedicalWorldModel.answer_question (wm : MedicalWorldModel) (c : PatientCase)
    (question : String) : (String × Bool) × PyRandom :=
  if dictContains c.qa question then
    wm.sample_variant_with_scope (dictGetD c.qa question "")
      (dictGetD (dictGetD qa_variants c.case_id []) question [])
      "qa" question
  else
    match dictGet? alias_map question with
    | some mapped =>
        if pyTruthy mapped && dictContains c.qa mapped then
          wm.sample_variant_with_scope (dictGetD c.qa mapped "")
            (dictGetD (dictGetD qa_variants c.case_id []) mapped [])
            "qa" mapped
        else (("患者暂时无法提供该信息。", false), wm.rng)
    | none => (("患者暂时无法提供该信息。", false), wm.rng)

/-- `MedicalWorldModel._sample_test_result`. -/
def MedicalWorldModel.sample_test_result (wm : MedicalWorldModel)
    (c : PatientCase) (test_name : String) : (String × Bool) × PyRandom :=
  match dictGet? c.tests test_name with
  | none => (("未找到该检查，请选择可用检查项。", false), wm.rng)
  | some canonical =>
      wm.sample_variant_with_scope canonical
        (dictGetD (dictGetD test_variants c.case_id []) test_name [])
        "test" test_name

/-- `MedicalWorldModel.step`. -/
def MedicalWorldModel.step (wm : MedicalWorldModel) (action : ToolAction) :
    Except String (ToolResult × MedicalWorldModel) :=
  match wm.state, wm.currentCase with
  | none, _ =>
      .error "World model is not initialized. Call reset(case_id) first."
  | _, none =>
      .error "World model is not initialized. Call reset(case_id) first."
  | some st, some c =>
      match action with
      | .ask_question rawq =>
          let question := pyLower (pyStrip rawq)
          let ans := wm.answer_question c question
          let key := if question = "" then "unknown_question" else question
          let st' := { st with
            known_facts := dictInsert st.known_facts key ans.1.1
            history := st.history ++ ["ask:" ++ question] }
          .ok ({ kind := .ask_question, observation := ans.1.1,
                 noisy := some ans.1.2, available_tests := none },
               { wm with state := some st', rng := ans.2 })
      | .order_test rawt =>
          let test_name := pyLower (pyStrip rawt)
          let res := wm.sample_test_result c test_name
          let st' := { st with
            completed_tests :=
              if dictContains c.tests test_name then
                dictInsert st.completed_tests test_name res.1.1
              else st.completed_tests
            history := st.history ++ ["test:" ++ test_name] }
          .ok ({ kind := .order_test, observation := res.1.1,
                 noisy := some res.1.2,
                 available_tests := some (sortStrings (dictKeys c.tests)) },
               { wm with state := some st', rng := res.2 })
      | .recommend_plan rawd =>
          let proposed := pyLower (pyStrip rawd)
          let target := pyLower c.final_diagnosis
          let observation :=
            if pyTruthy proposed && pyIn proposed target then
              "诊断方向与世界模型标签一致，可进入处置建议阶段。"
            else "诊断证据不足或方向不一致，建议继续问诊/检查。"
          let st' := { st with history := st.history ++ ["recommendation_evaluated"] }
          .ok ({ kind := .recommend_plan, observation := observation,
                 noisy := none, available_tests := none },
               { wm with state := some st' })

/-- `MedicalWorldModel.get_state` (the Python deepcopy is identity on
values). -/
def MedicalWorldModel.get_state (wm : MedicalWorldModel) :
    Except String PatientState :=
  match wm.state with
  | none => .error "World model is not initialized. Call reset(case_id) first."
  | some st => .ok st

/-- Run a whole action sequence, collecting every observation; a raising step
leaves the model unchanged. -/
def runActions (wm : MedicalWorldModel) :
    List ToolAction → List (Except String ToolResult) × MedicalWorldModel
  | [] => ([], wm)
  | a :: rest =>
      match wm.step a with
      | .error e =>
          let t := runActions wm rest
          (.error e :: t.1, t.2)
      | .ok (r, wm1) =>
          let t := runActions wm1 rest
          (.ok r :: t.1, t.2)

/-! ## knowledge.py -/

structure GuidelineSnippet where
  guideline_id : String
  title : String
  source : String
  tags : List String
  content : String
deriving DecidableEq, Repr

structure GuidelineHit where
  snippet : GuidelineSnippet
  score : Nat
  confidence : ℚ
deriving DecidableEq, Repr

/-- Word characters for `_tokenize`: Python `\w` (Unicode-aware) restricted to
the ASCII alphanumerics, underscore and the CJK block `一-鿿`, which
are the only word characters occurring in this program's text. -/
def isWordChar (c : Char) : Bool :=
  c.isAlphanum || c = '_' || (0x4e00 ≤ c.toNat && c.toNat ≤ 0x9fff)

def tokensAux : List Char → List Char → List String → List String
  | [], cur, acc =>
      if cur.isEmpty then acc.reverse
      else (String.mk cur.reverse :: acc).reverse
  | c :: rest, cur, acc =>
      if isWordChar c then tokensAux rest (c :: cur) acc
      else if cur.isEmpty then tokensAux rest [] acc
      else tokensAux rest [] (String.mk cur.reverse :: acc)

/-- `_tokenize`: lowercase, split on non-word characters, deduplicate (the
Python function returns a `set`; only membership and distinct counts are ever
used, so a duplicate-free list is a faithful embedding). -/
def tokenize (text : String) : List String :=
  (tokensAux (pyLower text).toList [] []).eraseDups

/-- The score the retriever gives one document against the (deduplicated)
query tokens: number of distinct query tokens found in the document bag. -/
def docScore (terms : List String) (doc : GuidelineSnippet) : Nat :=
  let bag := tokenize (doc.title ++ " " ++ joinSpace doc.tags ++ " " ++ doc.content)
  terms.countP (fun t => bag.contains t)

/-- The `scored` list built by `GuidelineRetriever.retrieve` (documents with
positive score, in corpus order). -/
def scoredDocs (docs : List GuidelineSnippet) (terms : List String) :
    List (Nat × GuidelineSnippet) :=
  docs.filterMap (fun d =>
    let score := docScore terms d
    if 0 < score then some (score, d) else none)

/-- Stable insertion used to embed Python's stable `list.sort(reverse=True)`
by score: an element is placed before the first element whose score does not
exceed it, so earlier corpus entries stay ahead on ties. -/
def insertScored (x : Nat × GuidelineSnippet) :
    List (Nat × GuidelineSnippet) → List (Nat × GuidelineSnippet)
  | [] => [x]
  | y :: ys => if y.1 ≤ x.1 then x :: y :: ys else y :: insertScored x ys

def sortScored : List (Nat × GuidelineSnippet) → List (Nat × GuidelineSnippet)
  | [] => []
  | x :: xs => insertScored x (sortScored xs)

/-- Python `max` over the scores of a nonempty selection (seeded with 0, which
is below every positive score). -/
def natMaxList (l : List Nat) : Nat :=
  l.foldl max 0

/-- `GuidelineRetriever.retrieve`. -/
def retrieve (docs : List GuidelineSnippet) (query : String) (top_k : Nat) :
    List GuidelineHit :=
  let terms := tokenize query
  if terms.isEmpty then []
  else
    let scored := scoredDocs docs terms
    let selected := (sortScored scored).take (max 1 top_k)
    if selected.isEmpty then []
    else
      let max_score := natMaxList (selected.map (fun p => p.1))
      selected.map (fun p =>
        { snippet := p.2, score := p.1
          confidence := round3 ((p.1 : ℚ) / (max 1 max_score : Nat)) })

/-- `_default_corpus`. -/
def default_corpus : List GuidelineSnippet :=
  [{ guideline_id := "acs-001"
     title := "急性冠脉综合征急诊流程"
     source := "AHA/ESC chest pain pathway (summary)"
     tags := ["胸痛", "心肌梗死", "ecg", "troponin", "再灌注"]
     content := "对疑似急性冠脉综合征患者应立即完成12导联心电图，动态复查肌钙蛋白，并在适应证下尽快评估再灌注治疗。" },
   { guideline_id := "cap-001"
     title := "社区获得性肺炎门急诊处理"
     source := "ATS/IDSA CAP guideline (summary)"
     tags := ["肺炎", "咳嗽", "发热", "胸片", "抗感染"]
     content := "对于疑似社区获得性肺炎应结合胸部影像与炎症指标，尽早启动经验性抗感染，并评估住院指征。" },
   { guideline_id := "app-001"
     title := "急性阑尾炎评估与外科会诊"
     source := "WSES appendicitis guideline (summary)"
     tags := ["阑尾炎", "右下腹痛", "超声", "外科"]
     content := "迁移性右下腹痛伴炎症指标升高时，应尽快进行影像评估并启动外科会诊。" },
   { guideline_id := "uti-001"
     title := "急性下尿路感染诊治原则"
     source := "EAU UTI guideline (summary)"
     tags := ["尿路感染", "尿频", "尿痛", "尿常规", "尿培养"]
     content := "急性下尿路感染推荐结合尿常规与必要时尿培养，抗菌治疗需结合耐药风险与培养结果优化。" },
   { guideline_id := "stroke-001"
     title := "急性缺血性卒中绿色通道"
     source := "AHA/ASA stroke guideline (summary)"
     tags := ["卒中", "言语不清", "肢体无力", "头颅ct", "再灌注"]
     content := "疑似急性卒中患者应立即完成神经功能评分与颅脑影像以排除出血，尽快评估再灌注时窗。" }]

/-! ## subagents.py -/

/-- `TriageAgent.assess`. -/
def TriageAgent.assess (st : PatientState) : String :=
  let symptoms := joinSpace st.symptoms
  if pyIn "胸痛" symptoms || pyIn "呼吸急促" symptoms then "high"
  else if pyIn "言语不清" symptoms || pyIn "肢体无力" symptoms then "high"
  else if pyIn "发热" symptoms && pyIn "咳嗽" symptoms then "medium"
  else "medium"

/-- `DiagnosticAgent._acs_evidence`. -/
def DiagnosticAgent.acs_evidence (st : PatientState) : Bool :=
  let ecg := pyLower (dictGetD st.completed_tests "ecg" "")
  let troponin := dictGetD st.completed_tests "troponin" ""
  (pyIn "st" ecg && pyIn "抬高" ecg) && (pyIn "肌钙蛋白" troponin && pyIn "升高" troponin)

/-- `DiagnosticAgent._pneumonia_evidence`. -/
def DiagnosticAgent.pneumonia_evidence (st : PatientState) : Bool :=
  pyIn "浸润" (dictGetD st.completed_tests "chest_xray" "")

/-- The sentinel "insufficient evidence" label of `infer_diagnosis`. -/
def insufficient_label : String := "诊断证据不足，建议继续检查"

/-- `DiagnosticAgent.infer_diagnosis`. -/
def DiagnosticAgent.infer_diagnosis (st : PatientState) : String :=
  let us := dictGetD st.completed_tests "abdominal_ultrasound" ""
  let urinalysis := dictGetD st.completed_tests "urinalysis" ""
  let urine_culture := dictGetD st.completed_tests "urine_culture" ""
  let head_ct := dictGetD st.completed_tests "head_ct" ""
  let nihss := dictGetD st.completed_tests "nihss" ""
  if DiagnosticAgent.acs_evidence st then "急性下壁心肌梗死"
  else if DiagnosticAgent.pneumonia_evidence st then "社区获得性肺炎"
  else if pyIn "阑尾" us then "急性阑尾炎"
  else if pyIn "亚硝酸盐" urinalysis &&
      (pyIn "大肠埃希菌" urine_culture || pyIn "菌" urine_culture) then
    "急性下尿路感染"
  else if pyIn "未见明显出血" head_ct && pyIn "nihss" (pyLower nihss) then
    "急性缺血性脑卒中"
  else insufficient_label

/-- `DiagnosticAgent.choose_action`. -/
def DiagnosticAgent.choose_action (st : PatientState) (user_message : String) :
    ToolAction :=
  let msg := pyLower user_message
  let completed := st.completed_tests
  let symptoms := joinSpace st.symptoms
  if pyIn "建议" user_message || pyIn "总结" user_message || pyIn "diagnosis" msg then
    .recommend_plan (DiagnosticAgent.infer_diagnosis st)
  else if pyIn "胸痛" symptoms then
    if !dictContains completed "ecg" then .order_test "ecg"
    else if !dictContains completed "troponin" then .order_test "troponin"
    else if !DiagnosticAgent.acs_evidence st && !dictContains completed "chest_xray" then
      .order_test "chest_xray"
    else .recommend_plan (DiagnosticAgent.infer_diagnosis st)
  else if pyIn "发热" symptoms && pyIn "咳嗽" symptoms then
    if !dictContains completed "cbc" then .order_test "cbc"
    else if !dictContains completed "chest_xray" then .order_test "chest_xray"
    else if !DiagnosticAgent.pneumonia_evidence st && !dictContains completed "crp" then
      .order_test "crp"
    else .recommend_plan (DiagnosticAgent.infer_diagnosis st)
  else if pyIn "右下腹痛" symptoms then
    if !dictContains completed "abdominal_ultrasound" then .order_test "abdominal_ultrasound"
    else .recommend_plan (DiagnosticAgent.infer_diagnosis st)
  else if pyIn "尿痛" symptoms || pyIn "尿频" symptoms then
    if !dictContains completed "urinalysis" then .order_test "urinalysis"
    else if !dictContains completed "urine_culture" then .order_test "urine_culture"
    else .recommend_plan (DiagnosticAgent.infer_diagnosis st)
  else if pyIn "言语不清" symptoms || pyIn "肢体无力" symptoms || pyIn "口角歪斜" symptoms then
    if !dictContains completed "head_ct" then .order_test "head_ct"
    else if !dictContains completed "nihss" then .order_test "nihss"
    else .recommend_plan (DiagnosticAgent.infer_diagnosis st)
  else .ask_question "onset"

/-- `DiagnosticAgent.treatment_plan`. -/
def DiagnosticAgent.treatment_plan (diagnosis : String) : String :=
  if pyIn "心肌梗死" diagnosis then
    "诊断倾向急性下壁心肌梗死：建议立即启动急诊胸痛流程，进行心电监护、抗血小板与再灌注评估。"
  else if pyIn "肺炎" diagnosis then
    "建议经验性抗感染治疗并评估氧饱和度，必要时住院观察。"
  else if pyIn "阑尾炎" diagnosis then
    "建议外科会诊，评估抗感染及手术时机。"
  else if pyIn "下尿路感染" diagnosis then
    "建议经验性抗感染并根据尿培养结果调整治疗，注意补液。"
  else if pyIn "脑卒中" diagnosis then
    "建议立即启动卒中绿色通道，评估再灌注时窗与神经监护。"
  else "建议补充关键检查后再决策。"

/-- `SafetyAgent.evaluate`: `(notice, emergency, red_flags, dangerous_miss)`. -/
def SafetyAgent.evaluate (st : PatientState) (diagnosis : String)
    (urgency : String) : String × Bool × List String × Bool :=
  let symptoms := joinSpace st.symptoms
  let flags0 : List String :=
    if pyIn "胸痛" symptoms && (pyIn "呼吸急促" symptoms || pyIn "出汗" symptoms) then
      ["胸痛伴呼吸急促/出汗"]
    else []
  let flags1 :=
    if pyIn "言语不清" symptoms && (pyIn "肢体无力" symptoms || pyIn "口角歪斜" symptoms) then
      flags0 ++ ["疑似急性卒中症状组合"]
    else flags0
  let ecg := pyLower (dictGetD st.completed_tests "ecg" "")
  let flags2 :=
    if pyIn "st" ecg && pyIn "抬高" ecg then flags1 ++ ["心电图ST段抬高"] else flags1
  let troponin := dictGetD st.completed_tests "troponin" ""
  let red_flags :=
    if pyIn "肌钙蛋白" troponin && pyIn "升高" troponin then flags2 ++ ["肌钙蛋白升高"]
    else flags2
  let emergency := 0 < red_flags.length
  let miss0 := red_flags.contains "胸痛伴呼吸急促/出汗" && !pyIn "心肌梗死" diagnosis
  let dangerous_miss :=
    miss0 || (red_flags.contains "疑似急性卒中症状组合" && !pyIn "脑卒中" diagnosis)
  let notice :=
    if emergency then "红旗规则触发：疑似急危重症，请立即急诊处置（本系统仅辅助）。"
    else if urgency = "high" then "高风险病例：本系统仅供辅助决策，请立即联系急诊医生。"
    else "本系统为辅助决策工具，最终诊疗请由持证医生确认。"
  (notice, emergency, red_flags, dangerous_miss)

/-! ## Parts of the pipeline missing from src/

The orchestrator calls `DiagnosticAgent.build_evidence_chain`,
`DiagnosticAgent.estimate_confidence` and `SafetyAgent.handoff_decision`, but
those three methods are absent from `subagents.py`; only their call sites
exist in the sources.  They are modelled below from the spec's contracts. -/

/-- Modelled from the spec: the configured minimum confidence threshold of
`handoff_decision` (default 0.5; no configuration code is in src/). -/
def min_confidence : ℚ := 1 / 2

/-- Modelled from the spec: the evidence predicate of the cluster whose label
is `label`, evaluated over completed-test text (the same predicates
`infer_diagnosis` uses). -/
def DiagnosticAgent.evidence_predicate (st : PatientState) (label : String) : Bool :=
  if label = "急性下壁心肌梗死" then DiagnosticAgent.acs_evidence st
  else if label = "社区获得性肺炎" then DiagnosticAgent.pneumonia_evidence st
  else if label = "急性阑尾炎" then
    pyIn "阑尾" (dictGetD st.completed_tests "abdominal_ultrasound" "")
  else if label = "急性下尿路感染" then
    pyIn "亚硝酸盐" (dictGetD st.completed_tests "urinalysis" "") &&
      (pyIn "大肠埃希菌" (dictGetD st.completed_tests "urine_culture" "") ||
        pyIn "菌" (dictGetD st.completed_tests "urine_culture" ""))
  else if label = "急性缺血性脑卒中" then
    pyIn "未见明显出血" (dictGetD st.completed_tests "head_ct" "") &&
      pyIn "nihss" (pyLower (dictGetD st.completed_tests "nihss" ""))
  else false

/-- Modelled from the spec: `build_evidence_chain(state, label)` — the
ordered completed-test facts that satisfied the winning predicate, empty for
the sentinel label.  `DiagnosticAgent.build_evidence_chain` is called by the
orchestrator but missing from `subagents.py`. -/
def DiagnosticAgent.build_evidence_chain (st : PatientState) (label : String) :
    List String :=
  let fact := fun (name : String) =>
    match dictGet? st.completed_tests name with
    | some text => [name ++ ": " ++ text]
    | none => []
  if label = insufficient_label then []
  else if label = "急性下壁心肌梗死" then fact "ecg" ++ fact "troponin"
  else if label = "社区获得性肺炎" then fact "chest_xray"
  else if label = "急性阑尾炎" then fact "abdominal_ultrasound"
  else if label = "急性下尿路感染" then fact "urinalysis" ++ fact "urine_culture"
  else if label = "急性缺血性脑卒中" then fact "head_ct" ++ fact "nihss"
  else []

/-- Modelled from the spec: `estimate_confidence(state, label,
guideline_confidence)` — a 0.7/0.3 blend of a base confidence (high when the
label's full evidence predicate holds, low for the sentinel label,
intermediate otherwise) with the retrieval confidence, clamped to `[0,1]`.
`DiagnosticAgent.estimate_confidence` is called by the orchestrator but
missing from `subagents.py`. -/
def DiagnosticAgent.estimate_confidence (st : PatientState) (label : String)
    (guideline_confidence : ℚ) : ℚ :=
  let base : ℚ :=
    if label = insufficient_label then 1 / 10
    else if DiagnosticAgent.evidence_predicate st label then 9 / 10
    else 1 / 2
  clamp01 (7 / 10 * base + 3 / 10 * guideline_confidence)

def reason_emergency : String := "红旗规则触发急症，需立即转人工处置"
def reason_dangerous_miss : String := "存在危重漏诊风险，需立即转人工复核"
def reason_insufficient : String := "诊断证据不足，转人工医生处理"
def reason_low_confidence : String := "诊断置信度低于阈值，转人工医生处理"

/-- Modelled from the spec: `handoff_decision(diagnosis, emergency,
dangerous_miss, confidence) → (escalate, refuse, reason)` — escalate = refuse
= true if emergency, or dangerous miss, or the diagnosis equals the sentinel
label, or confidence is below `min_confidence`; the reason is the first
matching condition's description in that priority order, empty otherwise.
`SafetyAgent.handoff_decision` is called by the orchestrator but missing from
`subagents.py`. -/
def SafetyAgent.handoff_decision (diagnosis : String) (emergency : Bool)
    (dangerous_miss : Bool) (evidence_confidence : ℚ) : Bool × Bool × String :=
  if emergency then (true, true, reason_emergency)
  else if dangerous_miss then (true, true, reason_dangerous_miss)
  else if diagnosis = insufficient_label then (true, true, reason_insufficient)
  else if evidence_confidence < min_confidence then (true, true, reason_low_confidence)
  else (false, false, "")

/-! ## orchestrator.py -/

structure AgentTurn where
  message : String
  tool_action : ToolAction
  tool_result : ToolResult
  diagnosis : String
  recommendation : String
  urgency : String
  safety_notice : String
  emergency : Bool
  red_flags : List String
  dangerous_miss : Bool
  guideline_refs : List String
  evidence_chain : List String
  diagnosis_confidence : ℚ
  escalate_to_human : Bool
  refusal : Bool
  refusal_reason : String
deriving DecidableEq, Repr

/-- `SessionRuntime`.  The triage/diagnostic/safety agents are stateless and
their methods are plain functions here; the tool registry dispatches every
action to `world_model.step`, so it is not reified. -/
structure SessionRuntime where
  session_id : String
  case_id : String
  created_at : ℚ
  world_model : MedicalWorldModel
  retrieverDocs : List GuidelineSnippet
  evidence_top_k : Nat
  turns : List AgentTurn
  last_accessed_at : ℚ

structure MedicalAgentSystem where
  sessions : List (String × SessionRuntime)
  session_ttl_seconds : ℚ
  max_sessions : Nat

/-- `MedicalAgentSystem._guideline_refs`. -/
def guideline_refs_of (docs : List GuidelineSnippet) (evidence_top_k : Nat)
    (st : PatientState) (diagnosis : String) : List String × ℚ :=
  let query := diagnosis ++ " " ++ joinSpace st.symptoms ++ " " ++
    joinSpace (dictKeys st.completed_tests)
  let hits := retrieve docs query evidence_top_k
  (hits.map (fun h =>
      h.snippet.guideline_id ++ ": " ++ h.snippet.title ++ " | " ++
        h.snippet.source ++ " | confidence=" ++ fmt3 h.confidence),
   maxD (hits.map (fun h => h.confidence)) 0)

/-- `MedicalAgentSystem._compose_message`. -/
def compose_message (tool_name observation diagnosis recommendation
    safety_notice : String) (guideline_refs evidence_chain : List String)
    (diagnosis_confidence : ℚ) (escalate_to_human refusal : Bool)
    (refusal_reason : String) : String :=
  let refs :=
    if guideline_refs.isEmpty then "- 暂无匹配指南"
    else String.intercalate "\n" (guideline_refs.map (fun x => "- " ++ x))
  let chain :=
    if evidence_chain.isEmpty then "- 无"
    else String.intercalate "\n" (evidence_chain.map (fun x => "- " ++ x))
  let handoff := if escalate_to_human then "是" else "否"
  let refused := if refusal then "是" else "否"
  let refusal_line := if refusal_reason = "" then "-" else refusal_reason
  "[工具调用] " ++ tool_name ++ "\n" ++
  "[观察结果] " ++ observation ++ "\n" ++
  "[诊断建议] " ++ diagnosis ++ "\n" ++
  "[诊断置信度] " ++ fmt3 diagnosis_confidence ++ "\n" ++
  "[证据链]\n" ++ chain ++ "\n" ++
  "[处置建议] " ++ recommendation ++ "\n" ++
  "[安全提示] " ++ safety_notice ++ "\n" ++
  "[参考指南]\n" ++ refs ++ "\n" ++
  "[转人工] " ++ handoff ++ "\n" ++
  "[拒答] " ++ refused ++ "\n" ++
  "[拒答原因] " ++ refusal_line

/-- The per-session body of `MedicalAgentSystem.chat`, from taking the state
snapshot through appending the composed turn to the runtime. -/
def chatTurn (rt : SessionRuntime) (user_message : String) :
    Except String (AgentTurn × SessionRuntime) :=
  match rt.world_model.get_state with
  | .error e => .error e
  | .ok state0 =>
      let urgency := TriageAgent.assess state0
      let action := DiagnosticAgent.choose_action state0 user_message
      match rt.world_model.step action with
      | .error e => .error e
      | .ok (result, wm') =>
          match wm'.get_state with
          | .error e => .error e
          | .ok latest =>
              let diagnosis := DiagnosticAgent.infer_diagnosis latest
              let recommendation := DiagnosticAgent.treatment_plan diagnosis
              let ev := SafetyAgent.evaluate latest diagnosis urgency
              let gr := guideline_refs_of rt.retrieverDocs rt.evidence_top_k latest diagnosis
              let evidence_chain := DiagnosticAgent.build_evidence_chain latest diagnosis
              let diagnosis_confidence :=
                DiagnosticAgent.estimate_confidence latest diagnosis gr.2
              let hd := SafetyAgent.handoff_decision diagnosis ev.2.1 ev.2.2.2
                diagnosis_confidence
              let turn : AgentTurn :=
                { message := compose_message action.kind.value result.observation
                    diagnosis recommendation ev.1 gr.1 evidence_chain
                    diagnosis_confidence hd.1 hd.2.1 hd.2.2
                  tool_action := action
                  tool_result := result
                  diagnosis := diagnosis
                  recommendation := recommendation
                  urgency := urgency
                  safety_notice := ev.1
                  emergency := ev.2.1
                  red_flags := ev.2.2.1
                  dangerous_miss := ev.2.2.2
                  guideline_refs := gr.1
                  evidence_chain := evidence_chain
                  diagnosis_confidence := diagnosis_confidence
                  escalate_to_human := hd.1
                  refusal := hd.2.1
                  refusal_reason := hd.2.2 }
              .ok (turn, { rt with world_model := wm', turns := rt.turns ++ [turn] })

/-- `MedicalAgentSystem._cleanup_expired` at instant `now`: drop every session
with `now - last_access ≥ ttl`. -/
def cleanup_expired (sys : MedicalAgentSystem) (now : ℚ) : MedicalAgentSystem :=
  let keep := fun (p : String × SessionRuntime) =>
    decide (now - p.2.last_accessed_at < sys.session_ttl_seconds)
  { sys with sessions := sys.sessions.filter keep }

/-- `MedicalAgentSystem.start_session`; `fresh_id` stands for the `uuid4()`
value and `now` for the wall clock. -/
def start_session (sys : MedicalAgentSystem) (fam : Option Nat → Nat → ℚ)
    (case_id : String) (random_seed : Option Nat) (observation_noise : ℚ)
    (noise_profile : NoiseProfile) (evidence_top_k : Nat) (fresh_id : String)
    (now : ℚ) : Except String String × MedicalAgentSystem :=
  let sys1 := cleanup_expired sys now
  if sys1.sessions.length ≥ sys1.max_sessions then
    (.error ("Maximum session limit (" ++ toString sys1.max_sessions ++
        ") reached. Please close existing sessions first."), sys1)
  else
    let wm := mkMedicalWorldModel fam random_seed observation_noise noise_profile
    match wm.reset case_id random_seed with
    | .error e => (.error e, sys1)
    | .ok wm' =>
        let rt : SessionRuntime :=
          { session_id := fresh_id
            case_id := case_id
            created_at := now
            world_model := wm'
            retrieverDocs := default_corpus
            evidence_top_k := max 1 evidence_top_k
            turns := []
            last_accessed_at := now }
        (.ok fresh_id, { sys1 with sessions := sys1.sessions ++ [(fresh_id, rt)] })

/-- `MedicalAgentSystem.chat`. -/
def chat (sys : MedicalAgentSystem) (session_id user_message : String)
    (now : ℚ) : Except String AgentTurn × MedicalAgentSystem :=
  let sys1 := cleanup_expired sys now
  match dictGet? sys1.sessions session_id with
  | none => (.error ("Unknown session_id: " ++ session_id), sys1)
  | some rt =>
      let rt1 := { rt with last_accessed_at := now }
      let sys2 := { sys1 with sessions := dictInsert sys1.sessions session_id rt1 }
      match chatTurn rt1 user_message with
      | .error e => (.error e, sys2)
      | .ok (turn, rt2) =>
          (.ok turn, { sys2 with sessions := dictInsert sys2.sessions session_id rt2 })

/-- `MedicalAgentSystem.state`. -/
def MedicalAgentSystem.state (sys : MedicalAgentSystem) (session_id : String)
    (now : ℚ) : Except String PatientState × MedicalAgentSystem :=
  let sys1 := cleanup_expired sys now
  match dictGet? sys1.sessions session_id with
  | none => (.error ("Unknown session_id: " ++ session_id), sys1)
  | some rt => (rt.world_model.get_state, sys1)

/-- `MedicalAgentSystem.turns`. -/
def MedicalAgentSystem.turns (sys : MedicalAgentSystem) (session_id : String)
    (now : ℚ) : Except String (List AgentTurn) × MedicalAgentSystem :=
  let sys1 := cleanup_expired sys now
  match dictGet? sys1.sessions session_id with
  | none => (.error ("Unknown session_id: " ++ session_id), sys1)
  | some rt => (.ok rt.turns, sys1)

/-- `MedicalAgentSystem.delete_session`. -/
def delete_session (sys : MedicalAgentSystem) (session_id : String) (now : ℚ) :
    Except String Unit × MedicalAgentSystem :=
  let sys1 := cleanup_expired sys now
  match dictGet? sys1.sessions session_id with
  | none => (.error ("Unknown session_id: " ++ session_id), sys1)
  | some _ =>
      (.ok (), { sys1 with sessions :=
        sys1.sessions.filter (fun p => decide (p.1 ≠ session_id)) })

/-! ## Claim-side definitions and concrete fixtures -/

/-- The layered noise resolution exactly as the spec words it: base
`observation_noise` clamped, then `default`, `case[case_id]`,
`{test|qa}[signal_name]`, `case_{test|qa}[case_id][signal_name]`, each layer
overriding the previous when present, final value clamped. -/
def layered_noise (base : ℚ) (p : NoiseProfile) (cid stype sname : String) : ℚ :=
  let sel := if stype = "test" then p.testNoise else p.qaNoise
  let selCase := if stype = "test" then p.caseTestNoise else p.caseQaNoise
  let layers : List (Option ℚ) :=
    [p.defaultNoise, dictGet? p.caseNoise cid, dictGet? sel sname,
     (dictGet? selCase cid).bind (fun m => dictGet? m sname)]
  clamp01 (layers.foldl (fun acc o => o.getD acc) (clamp01 base))

/-- The noise profile of the claimed override-precedence scenario:
`{default: 0.0, case_test: {"resp_001": {"cbc": 1.0}}}`. -/
def profileC5 : NoiseProfile :=
  { defaultNoise := some 0
    caseNoise := []
    testNoise := []
    qaNoise := []
    caseTestNoise := [("resp_001", [("cbc", 1)])]
    caseQaNoise := [] }

/-- The claim's matcher for `recommend-plan`: case-insensitive substring match
in both directions between candidate and final diagnosis. -/
def claim_bidirectional_match (candidate final : String) : Bool :=
  pyIn (pyLower candidate) (pyLower final) || pyIn (pyLower final) (pyLower candidate)

/-- The stripped-and-lowered question resolves against the case Q&A map,
directly or through the alias table (the condition guarding the sampled
answer in `_answer_question`). -/
def qa_resolvable (c : PatientCase) (q : String) : Bool :=
  dictContains c.qa q ||
    (match dictGet? alias_map q with
     | some m => pyTruthy m && dictContains c.qa m
     | none => false)

/-- The key-subset invariant of completed tests: every completed-test key is a
key of the bound case's test map. -/
def completed_tests_subset (wm : MedicalWorldModel) : Prop :=
  ∀ st c, wm.state = some st → wm.currentCase = some c →
    ∀ k, dictContains st.completed_tests k = true → dictContains c.tests k = true

/-- Distinct session identifiers (guaranteed by `uuid4`). -/
def nodup_keys {α : Type} (l : List (String × α)) : Prop :=
  (l.map (fun p => p.1)).Nodup

/-- The all-zero draw family, a valid `random()` stream. -/
def zStream : Option Nat → Nat → ℚ := fun _ _ => 0

def emptyState : PatientState :=
  { case_id := "", demographics := [], symptoms := [], known_facts := [],
    completed_tests := [], history := [] }

def emptyCase : PatientCase :=
  { case_id := "", demographics := [], symptoms := [], qa := [], tests := [],
    final_diagnosis := "" }

/-- A freshly reset world model on `cid` (all-zero draws, no noise). -/
def wmAfterReset (cid : String) : MedicalWorldModel :=
  match (mkMedicalWorldModel zStream (some 0) 0 NoiseProfile.empty).reset cid (some 0) with
  | .ok w => w
  | .error _ => mkMedicalWorldModel zStream (some 0) 0 NoiseProfile.empty

/-- Extract the known facts reached by one step (counterexample probe). -/
def step_known_facts (wm : MedicalWorldModel) (a : ToolAction) :
    Option (List (String × String)) :=
  match wm.step a with
  | .ok p => p.2.state.map (fun st => st.known_facts)
  | .error _ => none

/-- Extract the observation returned by one step (counterexample probe). -/
def step_observation (wm : MedicalWorldModel) (a : ToolAction) : Option String :=
  match wm.step a with
  | .ok p => some p.1.observation
  | .error _ => none

/-- A registered session runtime fixture. -/
def rtFixture (sid cid : String) (t : ℚ) : SessionRuntime :=
  { session_id := sid
    case_id := cid
    created_at := t
    world_model := wmAfterReset cid
    retrieverDocs := default_corpus
    evidence_top_k := 3
    turns := []
    last_accessed_at := t }

/-- Registry fixture with one session last accessed at time 0, ttl 10. -/
def sysFixture : MedicalAgentSystem :=
  { sessions := [("s1", rtFixture "s1" "resp_001" 0)]
    session_ttl_seconds := 10
    max_sessions := 100 }

/-- Registry fixture at capacity 0 holding one expired session. -/
def sysCapFixture : MedicalAgentSystem :=
  { sessions := [("s1", rtFixture "s1" "resp_001" 0)]
    session_ttl_seconds := 10
    max_sessions := 0 }

/-- Deterministic-replay fixtures: the same reset seed from two differently
constructed instances. -/
def wmDetA : MedicalWorldModel :=
  match (mkMedicalWorldModel zStream (some 5) 0 NoiseProfile.empty).reset "resp_001" (some 1) with
  | .ok w => w
  | .error _ => mkMedicalWorldModel zStream (some 5) 0 NoiseProfile.empty

def wmDetB : MedicalWorldModel :=
  match (mkMedicalWorldModel zStream none 0 NoiseProfile.empty).reset "resp_001" (some 1) with
  | .ok w => w
  | .error _ => mkMedicalWorldModel zStream none 0 NoiseProfile.empty

/-- The catalog's respiratory case (used by the override-precedence
scenario). -/
def caseResp : PatientCase :=
  (dictGet? build_cases "resp_001").getD emptyCase

/-- The model produced by resetting a fresh instance with profile
`profileC5` on "resp_001" with seed `s`. -/
def wmC5 (fam : Option Nat → Nat → ℚ) (s : Nat) (ν : ℚ) : MedicalWorldModel :=
  { cases := build_cases
    state := some { case_id := "resp_001"
                    demographics := caseResp.demographics
                    symptoms := caseResp.symptoms
                    known_facts := []
                    completed_tests := []
                    history := ["session_started:resp_001"] }
    currentCase := some caseResp
    rng := { fam := fam, seed := some s, idx := 0 }
    observation_noise := max 0 (min 1 ν)
    noise_profile := profileC5 }

/-! ## Helper lemmas -/

lemma clamp01_of_mem (y : ℚ) (h0 : 0 ≤ y) (h1 : y ≤ 1) : clamp01 y = y := by
  unfold clamp01
  rw [min_eq_right h1, max_eq_right h0]

lemma clamp01_clamp01 (x : ℚ) : clamp01 (clamp01 x) = clamp01 x :=
  clamp01_of_mem _ (le_max_left _ _) (max_le zero_le_one (min_le_left _ _))

lemma dictContains_dictInsert {α : Type} (l : List (String × α)) (k : String)
    (v : α) (a : String) :
    dictContains (dictInsert l k v) a = true ↔ a = k ∨ dictContains l a = true := by
  induction l with
  | nil =>
      simp only [dictInsert, dictContains, dictGet?]
      by_cases h : k = a
      · subst h; simp
      · simp [h, Ne.symm h]
  | cons p rest ih =>
      obtain ⟨k', v'⟩ := p
      by_cases h : k' = k
      · subst h
        simp only [dictInsert, if_pos rfl, dictContains, dictGet?]
        by_cases ha : k' = a
        · subst ha; simp
        · simp only [if_neg ha]
          constructor
          · exact fun hs => Or.inr hs
          · rintro (rfl | hs)
            · exact absurd rfl ha
            · exact hs
      · simp only [dictInsert, if_neg h, dictContains, dictGet?]
        by_cases ha : k' = a
        · subst ha; simp
        · simpa [ha] using ih

lemma dictGet?_dictInsert_self {α : Type} (l : List (String × α)) (k : String)
    (v : α) : dictGet? (dictInsert l k v) k = some v := by
  induction l with
  | nil => simp [dictInsert, dictGet?]
  | cons p rest ih =>
      obtain ⟨k', v'⟩ := p
      by_cases h : k' = k
      · subst h; simp [dictInsert, dictGet?]
      · simp [dictInsert, dictGet?, h, ih]

lemma dictGet?_filter_keep {α : Type} (l : List (String × α)) (k : String)
    (v : α) (keep : String × α → Bool) (h : dictGet? l k = some v)
    (hk : keep (k, v) = true) :
    dictGet? (l.filter keep) k = some v := by
  induction l with
  | nil => simp [dictGet?] at h
  | cons p rest ih =>
      obtain ⟨k', v'⟩ := p
      by_cases he : k' = k
      · subst he
        rw [dictGet?, if_pos rfl] at h
        obtain rfl : v' = v := Option.some.inj h
        rw [List.filter_cons_of_pos hk, dictGet?, if_pos rfl]
      · rw [dictGet?, if_neg he] at h
        have hrec := ih h
        cases hkeep : keep (k', v') with
        | true => rw [List.filter_cons_of_pos hkeep, dictGet?, if_neg he]; exact hrec
        | false => rw [List.filter_cons_of_neg (by simp [hkeep])]; exact hrec

lemma keys_of_filter_subset {α : Type} (l : List (String × α))
    (keep : String × α → Bool) (k : String)
    (h : k ∈ (l.filter keep).map (fun p => p.1)) : k ∈ l.map (fun p => p.1) := by
  simp only [List.mem_map] at h ⊢
  obtain ⟨p, hp, hpe⟩ := h
  exact ⟨p, (List.mem_filter.mp hp).1, hpe⟩

lemma dictGet?_eq_none_of_not_mem {α : Type} (l : List (String × α))
    (k : String) (h : k ∉ l.map (fun p => p.1)) : dictGet? l k = none := by
  induction l with
  | nil => rfl
  | cons p rest ih =>
      obtain ⟨k', v'⟩ := p
      simp only [List.map, List.mem_cons] at h
      push_neg at h
      have hne : ¬ k' = k := fun hk => h.1 hk.symm
      rw [dictGet?, if_neg hne]
      exact ih h.2

lemma dictGet?_filter_drop {α : Type} (l : List (String × α)) (k : String)
    (v : α) (keep : String × α → Bool) (h : dictGet? l k = some v)
    (hk : keep (k, v) = false) (hnd : nodup_keys l) :
    dictGet? (l.filter keep) k = none := by
  induction l with
  | nil => simp [dictGet?] at h
  | cons p rest ih =>
      obtain ⟨k', v'⟩ := p
      unfold nodup_keys at hnd
      simp only [List.map, List.nodup_cons] at hnd
      by_cases he : k' = k
      · subst he
        rw [dictGet?, if_pos rfl] at h
        obtain rfl : v' = v := Option.some.inj h
        rw [List.filter_cons_of_neg (by simp [hk])]
        exact dictGet?_eq_none_of_not_mem _ _
          (fun hmem => hnd.1 (keys_of_filter_subset _ _ _ hmem))
      · rw [dictGet?, if_neg he] at h
        have hrec := ih h hnd.2
        cases hkeep : keep (k', v') with
        | true => rw [List.filter_cons_of_pos hkeep, dictGet?, if_neg he]; exact hrec
        | false => rw [List.filter_cons_of_neg (by simp [hkeep])]; exact hrec

/-- One-step equation for `order_test` on an initialized model. -/
lemma step_order_eq (wm : MedicalWorldModel) (st : PatientState)
    (c : PatientCase) (t : String) (hst : wm.state = some st)
    (hc : wm.currentCase = some c) :
    wm.step (.order_test t) =
      .ok ({ kind := .order_test
             observation := (wm.sample_test_result c (pyLower (pyStrip t))).1.1
             noisy := some (wm.sample_test_result c (pyLower (pyStrip t))).1.2
             available_tests := some (sortStrings (dictKeys c.tests)) },
           { wm with
              state := some { st with
                completed_tests :=
                  if dictContains c.tests (pyLower (pyStrip t)) then
                    dictInsert st.completed_tests (pyLower (pyStrip t))
                      (wm.sample_test_result c (pyLower (pyStrip t))).1.1
                  else st.completed_tests
                history := st.history ++ ["test:" ++ pyLower (pyStrip t)] }
              rng := (wm.sample_test_result c (pyLower (pyStrip t))).2 }) := by
  unfold MedicalWorldModel.step
  rw [hst, hc]

/-- One-step equation for `ask_question` on an initialized model. -/
lemma step_ask_eq (wm : MedicalWorldModel) (st : PatientState)
    (c : PatientCase) (q : String) (hst : wm.state = some st)
    (hc : wm.currentCase = some c) :
    wm.step (.ask_question q) =
      .ok ({ kind := .ask_question
             observation := (wm.answer_question c (pyLower (pyStrip q))).1.1
             noisy := some (wm.answer_question c (pyLower (pyStrip q))).1.2
             available_tests := none },
           { wm with
              state := some { st with
                known_facts :=
                  dictInsert st.known_facts
                    (if pyLower (pyStrip q) = "" then "unknown_question"
                     else pyLower (pyStrip q))
                    (wm.answer_question c (pyLower (pyStrip q))).1.1
                history := st.history ++ ["ask:" ++ pyLower (pyStrip q)] }
              rng := (wm.answer_question c (pyLower (pyStrip q))).2 }) := by
  unfold MedicalWorldModel.step
  rw [hst, hc]

/-- One-step equation for `recommend_plan` on an initialized model. -/
lemma step_recommend_eq (wm : MedicalWorldModel) (st : PatientState)
    (c : PatientCase) (d : String) (hst : wm.state = some st)
    (hc : wm.currentCase = some c) :
    wm.step (.recommend_plan d) =
      .ok ({ kind := .recommend_plan
             observation :=
               if pyTruthy (pyLower (pyStrip d)) &&
                   pyIn (pyLower (pyStrip d)) (pyLower c.final_diagnosis) then
                 "诊断方向与世界模型标签一致，可进入处置建议阶段。"
               else "诊断证据不足或方向不一致，建议继续问诊/检查。"
             noisy := none
             available_tests := none },
           { wm with
              state := some { st with
                history := st.history ++ ["recommendation_evaluated"] } }) := by
  unfold MedicalWorldModel.step
  rw [hst, hc]

/-- Unresolvable questions get the fixed "cannot provide" answer and leave the
generator untouched. -/
lemma answer_question_unresolvable (wm : MedicalWorldModel) (c : PatientCase)
    (q : String) (h : qa_resolvable c q = false) :
    wm.answer_question c q = (("患者暂时无法提供该信息。", false), wm.rng) := by
  unfold qa_resolvable at h
  unfold MedicalWorldModel.answer_question
  cases hq : dictContains c.qa q with
  | true => rw [hq] at h; simp at h
  | false =>
      rw [hq] at h
      simp only [Bool.false_or] at h
      rw [if_neg (by simp [hq])]
      cases halias : dictGet? alias_map q with
      | none => rfl
      | some m =>
          rw [halias] at h
          have hm : (pyTruthy m && dictContains c.qa m) = false := by
            simpa using h
          simp [hm]

/-- C2: handoff_decision escalates and refuses exactly when emergency,
dangerous miss, the sentinel insufficient-evidence diagnosis, or confidence
below the 0.5 threshold holds; the reason is the first matching condition's
description in that priority order, and empty when there is no escalation.
(The gate itself is modelled from the spec: its method is missing from
src/.) -/
theorem handoff_decision_priority (d : String) (e dm : Bool) (conf : ℚ)
    (esc ref : Bool) (reason : String)
    (h : SafetyAgent.handoff_decision d e dm conf = (esc, ref, reason)) :
    ((esc = true ∧ ref = true) ↔
      (e = true ∨ dm = true ∨ d = insufficient_label ∨ conf < min_confidence)) ∧
    esc = ref ∧
    reason = (if e = true then reason_emergency
      else if dm = true then reason_dangerous_miss
      else if d = insufficient_label then reason_insufficient
      else if conf < min_confidence then reason_low_confidence
      else "") ∧
    (esc = false → reason = "") := by
  unfold SafetyAgent.handoff_decision at h
  cases e <;> cases dm <;>
    by_cases hd : d = insufficient_label <;>
    by_cases hc : conf < min_confidence <;>
    simp only [Bool.false_eq_true, if_true, if_false, hd, hc, if_pos, if_neg,
      ite_true, ite_false, not_false_eq_true, Bool.true_eq_false] at h <;>
    simp only [Prod.mk.injEq] at h <;>
    obtain ⟨rfl, rfl, rfl⟩ := h <;>
    simp [hd, hc, reason_emergency, reason_dangerous_miss, reason_insufficient,
      reason_low_confidence]

/-- C2 witness: an emergency input escalates with the emergency reason. -/
theorem handoff_decision_priority_witness :
    SafetyAgent.handoff_decision "x" true false 1 = (true, true, reason_emergency) ∧
    (true : Bool) = true :=
  ⟨rfl, (handoff_decision_priority "x" true false 1 true true reason_emergency
    rfl).2.1⟩

/-- C6: the World Model is a deterministic function of the reset seed and the
action sequence — two instances (with arbitrary, even different, constructor
seeds) reset on the same case and seed agree on the whole observation trace
(noisy flags included) and on every intermediate state.  Determinism is by
construction of the embedding: the generator is an explicit stream determined
by the seed, so the trace depends on nothing else. -/
theorem world_model_deterministic (fam : Option Nat → Nat → ℚ) (ν : ℚ)
    (prof : NoiseProfile) (s0 s0' : Option Nat) (cid : String) (s : Nat)
    (acts : List ToolAction) (wm1 wm2 : MedicalWorldModel)
    (h1 : (mkMedicalWorldModel fam s0 ν prof).reset cid (some s) = .ok wm1)
    (h2 : (mkMedicalWorldModel fam s0' ν prof).reset cid (some s) = .ok wm2) :
    runActions wm1 acts = runActions wm2 acts ∧ wm1 = wm2 := by
  unfold MedicalWorldModel.reset mkMedicalWorldModel at h1 h2
  cases hcase : dictGet? build_cases cid with
  | none => rw [hcase] at h1; exact absurd h1 (by simp)
  | some c =>
      rw [hcase] at h1 h2
      simp only [Except.ok.injEq] at h1 h2
      have : wm1 = wm2 := by rw [← h1, ← h2]; rfl
      subst this
      exact ⟨rfl, rfl⟩

/-- C6 witness: instances constructed with seeds 5 and none, reset on
"resp_001" with seed 1, replay identically. -/
theorem world_model_deterministic_witness :
    runActions wmDetA [ToolAction.order_test "cbc", ToolAction.ask_question "onset"] =
      runActions wmDetB [ToolAction.order_test "cbc", ToolAction.ask_question "onset"] ∧
    wmDetA = wmDetB :=
  world_model_deterministic zStream 0 NoiseProfile.empty (some 5) none
    "resp_001" 1 [ToolAction.order_test "cbc", ToolAction.ask_question "onset"]
    wmDetA wmDetB rfl rfl

/-- C4 (amended): `recommend-plan` compares case-insensitively but in ONE
direction only — the stripped candidate must be a nonempty substring of the
final diagnosis; it returns the "consistent, proceed" observation exactly
then, returns the "continue workup" observation otherwise, and mutates
nothing but the history tag (completed tests unchanged). -/
theorem recommend_plan_unidirectional (wm : MedicalWorldModel)
    (st : PatientState) (c : PatientCase) (d : String)
    (hst : wm.state = some st) (hc : wm.currentCase = some c) :
    ∃ res wm', wm.step (.recommend_plan d) = .ok (res, wm') ∧
      (res.observation = "诊断方向与世界模型标签一致，可进入处置建议阶段。" ↔
        (pyTruthy (pyLower (pyStrip d)) &&
          pyIn (pyLower (pyStrip d)) (pyLower c.final_diagnosis)) = true) ∧
      wm'.state = some { st with history := st.history ++ ["recommendation_evaluated"] } ∧
      (∀ st', wm'.state = some st' → st'.completed_tests = st.completed_tests) := by
  rw [step_recommend_eq wm st c d hst hc]
  refine ⟨_, _, rfl, ?_, rfl, ?_⟩
  · cases hcond : (pyTruthy (pyLower (pyStrip d)) &&
        pyIn (pyLower (pyStrip d)) (pyLower c.final_diagnosis)) with
    | true => simp
    | false =>
        simp only [Bool.false_eq_true, iff_false]
        decide
  · intro st' hst'
    obtain rfl : ({ st with history := st.history ++ ["recommendation_evaluated"] } : PatientState) = st' :=
      Option.some.inj hst'
    rfl

/-- C4 witness: a correct full-label candidate on the chest-pain case is
reported consistent. -/
theorem recommend_plan_unidirectional_witness :
    ∃ res wm', (wmAfterReset "chest_pain_001").step (.recommend_plan "急性下壁心肌梗死") = .ok (res, wm') ∧
      (res.observation = "诊断方向与世界模型标签一致，可进入处置建议阶段。" ↔
        (pyTruthy (pyLower (pyStrip "急性下壁心肌梗死")) &&
          pyIn (pyLower (pyStrip "急性下壁心肌梗死"))
            (pyLower ((wmAfterReset "chest_pain_001").currentCase.getD emptyCase).final_diagnosis)) = true) ∧
      wm'.state = some { (wmAfterReset "chest_pain_001").state.getD emptyState with
        history := ((wmAfterReset "chest_pain_001").state.getD emptyState).history ++
          ["recommendation_evaluated"] } ∧
      (∀ st', wm'.state = some st' →
        st'.completed_tests = ((wmAfterReset "chest_pain_001").state.getD emptyState).completed_tests) :=
  recommend_plan_unidirectional (wmAfterReset "chest_pain_001")
    ((wmAfterReset "chest_pain_001").state.getD emptyState)
    ((wmAfterReset "chest_pain_001").currentCase.getD emptyCase)
    "急性下壁心肌梗死" rfl rfl

/-- C4 counterexample: the candidate "急性下壁心肌梗死后遗症" contains the
final diagnosis, so the claimed bidirectional match succeeds, yet the code
reports "insufficient or inconsistent" because only
candidate-inside-final counts. -/
theorem recommend_plan_bidirectional_counterexample :
    claim_bidirectional_match "急性下壁心肌梗死后遗症" "急性下壁心肌梗死" = true ∧
    step_observation (wmAfterReset "chest_pain_001")
        (.recommend_plan "急性下壁心肌梗死后遗症") =
      some "诊断证据不足或方向不一致，建议继续问诊/检查。" := by
  constructor
  · decide
  · decide

/-- C3 (amended): when the stripped-and-lowered question resolves neither
directly nor through the alias table, `step` returns the fixed "cannot
provide" observation (noisy = false), leaves completed tests, demographics,
symptoms and the generator untouched, appends one history tag — but, contrary
to the claim, it also records the "cannot provide" answer into known facts
under the question key (or "unknown_question" for an empty question). -/
theorem ask_unresolvable_records_fact (wm : MedicalWorldModel)
    (st : PatientState) (c : PatientCase) (q : String)
    (hst : wm.state = some st) (hc : wm.currentCase = some c)
    (h : qa_resolvable c (pyLower (pyStrip q)) = false) :
    wm.step (.ask_question q) =
      .ok ({ kind := .ask_question
             observation := "患者暂时无法提供该信息。"
             noisy := some false
             available_tests := none },
           { wm with state := some { st with
               known_facts := dictInsert st.known_facts
                 (if pyLower (pyStrip q) = "" then "unknown_question"
                  else pyLower (pyStrip q))
                 "患者暂时无法提供该信息。"
               history := st.history ++ ["ask:" ++ pyLower (pyStrip q)] } }) := by
  rw [step_ask_eq wm st c q hst hc,
    answer_question_unresolvable wm c (pyLower (pyStrip q)) h]

/-- C3 witness: asking `职业` (absent from the Q&A map and the alias table)
on a fresh respiratory case yields the fixed cannot-provide observation. -/
theorem ask_unresolvable_records_fact_witness :
    step_observation (wmAfterReset "resp_001") (.ask_question "职业") =
      some "患者暂时无法提供该信息。" := by
  unfold step_observation
  rw [ask_unresolvable_records_fact (wmAfterReset "resp_001")
    ((wmAfterReset "resp_001").state.getD emptyState)
    ((wmAfterReset "resp_001").currentCase.getD emptyCase)
    "职业" rfl rfl (by decide)]

/-- C3 counterexample: asking the unknown question `职业历史` on a fresh
chest-pain case returns the cannot-provide observation, yet known facts grow
from `[]` to one recorded entry — the claim's "known_facts unchanged" is
false. -/
theorem ask_unresolvable_counterexample :
    step_observation (wmAfterReset "chest_pain_001") (.ask_question "职业历史") =
      some "患者暂时无法提供该信息。" ∧
    step_known_facts (wmAfterReset "chest_pain_001") (.ask_question "职业历史") =
      some [("职业历史", "患者暂时无法提供该信息。")] ∧
    (wmAfterReset "chest_pain_001").state.map (fun s => s.known_facts) = some [] := by
  refine ⟨by decide, by decide, by decide⟩

/-- `step` preserves the completed-tests key-subset invariant. -/
lemma step_preserves_completed_subset (wm : MedicalWorldModel) (a : ToolAction)
    (h : completed_tests_subset wm) :
    ∀ r wm', wm.step a = .ok (r, wm') → completed_tests_subset wm' := by
  intro r wm' hstep
  cases hst : wm.state with
  | none =>
      cases hc2 : wm.currentCase with
      | none =>
          unfold MedicalWorldModel.step at hstep
          rw [hst, hc2] at hstep
          cases hstep
      | some c =>
          unfold MedicalWorldModel.step at hstep
          rw [hst, hc2] at hstep
          cases hstep
  | some st =>
  cases hc : wm.currentCase with
  | none =>
      unfold MedicalWorldModel.step at hstep
      rw [hst, hc] at hstep
      cases hstep
  | some c =>
  cases a with
  | ask_question q =>
      rw [step_ask_eq wm st c q hst hc] at hstep
      obtain ⟨-, rfl⟩ := Prod.mk.injEq .. ▸ (Except.ok.inj hstep)
      intro st' c' hst' hc' k hk
      obtain rfl : c = c' := Option.some.inj (hc ▸ hc')
      obtain rfl := Option.some.inj hst'.symm
      exact h st c hst hc k hk
  | order_test t =>
      rw [step_order_eq wm st c t hst hc] at hstep
      obtain ⟨-, rfl⟩ := Prod.mk.injEq .. ▸ (Except.ok.inj hstep)
      intro st' c' hst' hc' k hk
      obtain rfl : c = c' := Option.some.inj (hc ▸ hc')
      obtain rfl := Option.some.inj hst'.symm
      by_cases hmem : dictContains c.tests (pyLower (pyStrip t)) = true
      · rw [if_pos hmem] at hk
        rcases (dictContains_dictInsert _ _ _ _).mp hk with rfl | hold
        · exact hmem
        · exact h st c hst hc k hold
      · rw [if_neg hmem] at hk
        exact h st c hst hc k hk
  | recommend_plan d =>
      rw [step_recommend_eq wm st c d hst hc] at hstep
      obtain ⟨-, rfl⟩ := Prod.mk.injEq .. ▸ (Except.ok.inj hstep)
      intro st' c' hst' hc' k hk
      obtain rfl : c = c' := Option.some.inj (hc ▸ hc')
      obtain rfl := Option.some.inj hst'.symm
      exact h st c hst hc k hk

/-- `runActions` preserves the completed-tests key-subset invariant. -/
lemma runActions_preserves_completed_subset (acts : List ToolAction) :
    ∀ wm : MedicalWorldModel, completed_tests_subset wm →
      completed_tests_subset (runActions wm acts).2 := by
  induction acts with
  | nil => intro wm h; exact h
  | cons a rest ih =>
      intro wm h
      unfold runActions
      cases hstep : wm.step a with
      | error e => exact ih wm h
      | ok p =>
          obtain ⟨r, wm1⟩ := p
          exact ih wm1 (step_preserves_completed_subset wm a h r wm1 hstep)

/-- C10: after any `reset`, completed tests start empty and every reachable
state keeps the completed-test key set inside the case's test-map key set —
`order_test` only writes a result whose name exists in the case's tests. -/
theorem completed_tests_subset_invariant (wm : MedicalWorldModel)
    (cid : String) (seed : Option Nat) (wm1 : MedicalWorldModel)
    (acts : List ToolAction) (h : wm.reset cid seed = .ok wm1) :
    completed_tests_subset wm1 ∧
    completed_tests_subset (runActions wm1 acts).2 := by
  have hbase : completed_tests_subset wm1 := by
    unfold MedicalWorldModel.reset at h
    cases hcase : dictGet? wm.cases cid with
    | none => rw [hcase] at h; cases h
    | some c =>
        rw [hcase] at h
        obtain rfl := Except.ok.inj h
        intro st' c' hst' hc' k hk
        obtain rfl := Option.some.inj hst'.symm
        simp [dictContains, dictGet?] at hk
  exact ⟨hbase, runActions_preserves_completed_subset acts wm1 hbase⟩

/-- C10 witness: the invariant at a freshly reset UTI case and after a short
action sequence. -/
theorem completed_tests_subset_invariant_witness :
    completed_tests_subset (wmAfterReset "uti_001") ∧
    completed_tests_subset
      (runActions (wmAfterReset "uti_001")
        [ToolAction.order_test "urinalysis", ToolAction.order_test "bogus_test"]).2 :=
  completed_tests_subset_invariant
    (mkMedicalWorldModel zStream (some 0) 0 NoiseProfile.empty) "uti_001"
    (some 0) (wmAfterReset "uti_001")
    [ToolAction.order_test "urinalysis", ToolAction.order_test "bogus_test"] rfl

set_option maxHeartbeats 2000000 in
/-- The code's `_effective_noise` equals the spec's layered first-present
resolution. -/
lemma effective_noise_eq_layered (wm : MedicalWorldModel) (c : PatientCase)
    (stype sname : String) (hc : wm.currentCase = some c)
    (hstype : stype = "test" ∨ stype = "qa") (hs : sname ≠ "") :
    wm.effective_noise stype sname =
      layered_noise wm.observation_noise wm.noise_profile c.case_id stype sname := by
  have hsb : (decide ¬sname = "") = true := by simp [hs]
  rcases hstype with rfl | rfl
  · unfold MedicalWorldModel.effective_noise layered_noise
    rw [hc]
    simp only [hsb, decide_True, decide_False, Bool.true_and, Bool.and_true,
      Bool.false_and, Bool.and_false, if_true, if_false, ite_true, ite_false,
      List.foldl, reduceIte, String.reduceEq]
    cases hdef : wm.noise_profile.defaultNoise <;>
      cases hcase : dictGet? wm.noise_profile.caseNoise c.case_id <;>
      cases htest : dictGet? wm.noise_profile.testNoise sname <;>
      cases hct : (dictGet? wm.noise_profile.caseTestNoise c.case_id).bind
          (fun m => dictGet? m sname) <;>
      simp [hdef, hcase, htest, hct, clamp01_clamp01, clamp01]
  · unfold MedicalWorldModel.effective_noise layered_noise
    rw [hc]
    simp only [hsb, decide_True, decide_False, Bool.true_and, Bool.and_true,
      Bool.false_and, Bool.and_false, if_true, if_false, ite_true, ite_false,
      List.foldl, reduceIte, String.reduceEq]
    cases hdef : wm.noise_profile.defaultNoise <;>
      cases hcase : dictGet? wm.noise_profile.caseNoise c.case_id <;>
      cases hqa : dictGet? wm.noise_profile.qaNoise sname <;>
      cases hcq : (dictGet? wm.noise_profile.caseQaNoise c.case_id).bind
          (fun m => dictGet? m sname) <;>
      simp [hdef, hcase, hqa, hcq, clamp01_clamp01, clamp01]

/-- Sampling with one registered variant and a draw below the effective noise
returns the variant, flagged noisy, consuming two draws. -/
lemma sample_variant_noisy (wm : MedicalWorldModel) (canonical v : String)
    (stype sname : String)
    (hlt : wm.rng.fam wm.rng.seed wm.rng.idx < wm.effective_noise stype sname) :
    wm.sample_variant_with_scope canonical [v] stype sname =
      ((v, true), { fam := wm.rng.fam, seed := wm.rng.seed, idx := wm.rng.idx + 2 }) := by
  simp only [MedicalWorldModel.sample_variant_with_scope, PyRandom.random,
    List.isEmpty_cons, Bool.false_eq_true, if_false, ite_false, reduceIte]
  rw [if_pos hlt]
  simp [PyRandom.choice, PyRandom.random, choiceIdx, Nat.min_zero, List.getD]

/-- Sampling with a nonempty variant pool and a draw at or above the effective
noise returns the canonical value, not noisy, consuming one draw. -/
lemma sample_variant_canonical (wm : MedicalWorldModel) (canonical v : String)
    (rest : List String) (stype sname : String)
    (hge : ¬ wm.rng.fam wm.rng.seed wm.rng.idx < wm.effective_noise stype sname) :
    wm.sample_variant_with_scope canonical (v :: rest) stype sname =
      ((canonical, false),
       { fam := wm.rng.fam, seed := wm.rng.seed, idx := wm.rng.idx + 1 }) := by
  simp only [MedicalWorldModel.sample_variant_with_scope, PyRandom.random,
    List.isEmpty_cons, Bool.false_eq_true, if_false, ite_false, reduceIte]
  rw [if_neg hge]

/-- A test with one registered variant whose draw is below the effective noise
comes back flagged noisy. -/
lemma sample_test_result_noisy (wm : MedicalWorldModel) (c : PatientCase)
    (t canonical v : String)
    (hcanon : dictGet? c.tests t = some canonical)
    (halts : dictGetD (dictGetD test_variants c.case_id []) t [] = [v])
    (hlt : wm.rng.fam wm.rng.seed wm.rng.idx < wm.effective_noise "test" t) :
    (wm.sample_test_result c t).1.2 = true := by
  simp only [MedicalWorldModel.sample_test_result, hcanon, halts]
  rw [sample_variant_noisy wm canonical v "test" t hlt]

/-- A test with at least one registered variant whose draw is at or above the
effective noise comes back canonical, not noisy. -/
lemma sample_test_result_not_noisy (wm : MedicalWorldModel) (c : PatientCase)
    (t canonical v : String) (rest : List String)
    (hcanon : dictGet? c.tests t = some canonical)
    (halts : dictGetD (dictGetD test_variants c.case_id []) t [] = v :: rest)
    (hge : ¬ wm.rng.fam wm.rng.seed wm.rng.idx < wm.effective_noise "test" t) :
    (wm.sample_test_result c t).1.2 = false := by
  simp only [MedicalWorldModel.sample_test_result, hcanon, halts]
  rw [sample_variant_canonical wm canonical v rest "test" t hge]

/-- The override-precedence scenario: with profile
`{default: 0, case_test: {resp_001: {cbc: 1}}}` a fresh session on
"resp_001" always samples the cbc variant (noisy) and the canonical chest
x-ray (not noisy), whatever the seed and draw stream. -/
lemma profileC5_scenario (fam : Option Nat → Nat → ℚ) (s : Nat) (ν : ℚ)
    (wm1 : MedicalWorldModel)
    (hfam : ∀ os i, 0 ≤ fam os i ∧ fam os i < 1)
    (hreset : (mkMedicalWorldModel fam (some s) ν profileC5).reset "resp_001"
      (some s) = .ok wm1) :
    ∃ r wm2, wm1.step (.order_test "cbc") = .ok (r, wm2) ∧ r.noisy = some true ∧
      ∃ r2 wm3, wm2.step (.order_test "chest_xray") = .ok (r2, wm3) ∧
        r2.noisy = some false := by
  have hW : wm1 = wmC5 fam s ν :=
    (Except.ok.inj ((rfl : (mkMedicalWorldModel fam (some s) ν profileC5).reset
      "resp_001" (some s) = .ok (wmC5 fam s ν)).symm.trans hreset)).symm
  subst hW
  have hcbc : (wmC5 fam s ν).sample_test_result caseResp "cbc" =
      (("血常规示白细胞增高并以中性粒细胞为主。", true),
       { fam := fam, seed := some s, idx := 2 }) := by
    simp only [MedicalWorldModel.sample_test_result,
      show dictGet? caseResp.tests "cbc" =
        some "白细胞12.8x10^9/L，中性粒细胞比例升高。" from rfl,
      show dictGetD (dictGetD test_variants caseResp.case_id []) "cbc" [] =
        ["血常规示白细胞增高并以中性粒细胞为主。"] from rfl]
    exact sample_variant_noisy (wmC5 fam s ν)
      "白细胞12.8x10^9/L，中性粒细胞比例升高。" "血常规示白细胞增高并以中性粒细胞为主。"
      "test" "cbc" ((hfam (some s) 0).2)
  refine ⟨_, _, step_order_eq (wmC5 fam s ν) _ caseResp "cbc" rfl rfl, ?_, ?_⟩
  · exact congrArg some (sample_test_result_noisy _ caseResp _ _
      "血常规示白细胞增高并以中性粒细胞为主。" rfl rfl ((hfam (some s) 0).2))
  · rw [show pyLower (pyStrip "cbc") = "cbc" from rfl, hcbc]
    refine ⟨_, _, step_order_eq _ _ caseResp "chest_xray" rfl rfl, ?_⟩
    exact congrArg some (sample_test_result_not_noisy _ caseResp _ _
      "胸片见右下肺斑片状浸润，倾向感染。" [] rfl rfl
      (not_lt.2 ((hfam (some s) 2).1)))

/-- C5: the effective noise probability is resolved by layering — base
`observation_noise` (clamped), overridden in turn by profile `default`,
`case[case_id]`, `{test|qa}[signal_name]`,
`case_{test|qa}[case_id][signal_name]` when present, with a final clamp to
`[0,1]`; consequently, under `{default: 0, case_test: {resp_001: {cbc: 1}}}`,
ordering "cbc" on "resp_001" always returns a variant with noisy = true and
ordering "chest_xray" always returns the canonical result with
noisy = false. -/
theorem noise_override_layering :
    (∀ (wm : MedicalWorldModel) (c : PatientCase) (stype sname : String),
      wm.currentCase = some c → (stype = "test" ∨ stype = "qa") → sname ≠ "" →
      wm.effective_noise stype sname =
        layered_noise wm.observation_noise wm.noise_profile c.case_id stype sname) ∧
    (∀ (fam : Option Nat → Nat → ℚ) (s : Nat) (ν : ℚ)
      (wm1 : MedicalWorldModel),
      (∀ os i, 0 ≤ fam os i ∧ fam os i < 1) →
      (mkMedicalWorldModel fam (some s) ν profileC5).reset "resp_001" (some s) =
        .ok wm1 →
      ∃ r wm2, wm1.step (.order_test "cbc") = .ok (r, wm2) ∧
        r.noisy = some true ∧
        ∃ r2 wm3, wm2.step (.order_test "chest_xray") = .ok (r2, wm3) ∧
          r2.noisy = some false) :=
  ⟨fun wm c stype sname hc hstype hs =>
      effective_noise_eq_layered wm c stype sname hc hstype hs,
   fun fam s ν wm1 hfam hreset => profileC5_scenario fam s ν wm1 hfam hreset⟩

/-- C5 witness: the layering identity and the override scenario at the
all-zero draw stream with seed 1. -/
theorem noise_override_layering_witness :
    (wmC5 zStream 1 0).effective_noise "test" "cbc" =
      layered_noise (wmC5 zStream 1 0).observation_noise
        (wmC5 zStream 1 0).noise_profile caseResp.case_id "test" "cbc" ∧
    (∃ r wm2, (wmC5 zStream 1 0).step (.order_test "cbc") = .ok (r, wm2) ∧
      r.noisy = some true ∧
      ∃ r2 wm3, wm2.step (.order_test "chest_xray") = .ok (r2, wm3) ∧
        r2.noisy = some false) :=
  ⟨noise_override_layering.1 (wmC5 zStream 1 0) caseResp "test" "cbc" rfl
      (Or.inl rfl) (by decide),
   noise_override_layering.2 zStream 1 0 (wmC5 zStream 1 0)
      (fun os i => ⟨le_refl 0, by norm_num [zStream]⟩) rfl⟩

/-- C7: a registered session accessed strictly within the ttl survives eager
eviction and is retrievable; any registry access at or beyond ttl past the
last access first evicts it and then fails with the Not-Found error; and no
session at or beyond ttl past its last access survives `_cleanup_expired`. -/
theorem session_ttl (sys : MedicalAgentSystem) (sid : String)
    (rt : SessionRuntime) (now : ℚ) :
    ((dictGet? sys.sessions sid = some rt ∧
        now - rt.last_accessed_at < sys.session_ttl_seconds) →
      (sys.turns sid now).1 = .ok rt.turns) ∧
    ((dictGet? sys.sessions sid = some rt ∧
        sys.session_ttl_seconds ≤ now - rt.last_accessed_at ∧
        nodup_keys sys.sessions) →
      (MedicalAgentSystem.state sys sid now).1 =
        .error ("Unknown session_id: " ++ sid)) ∧
    (∀ p ∈ (cleanup_expired sys now).sessions,
      now - p.2.last_accessed_at < sys.session_ttl_seconds) := by
  refine ⟨?_, ?_, ?_⟩
  · rintro ⟨h1, h2⟩
    have hkeep := dictGet?_filter_keep sys.sessions sid rt
      (fun p => decide (now - p.2.last_accessed_at < sys.session_ttl_seconds))
      h1 (decide_eq_true h2)
    simp only [MedicalAgentSystem.turns, cleanup_expired]
    rw [hkeep]
  · rintro ⟨h1, h2, h3⟩
    have hdrop := dictGet?_filter_drop sys.sessions sid rt
      (fun p => decide (now - p.2.last_accessed_at < sys.session_ttl_seconds))
      h1 (decide_eq_false (not_lt.2 h2)) h3
    simp only [MedicalAgentSystem.state, cleanup_expired]
    rw [hdrop]
  · intro p hp
    simp only [cleanup_expired, List.mem_filter] at hp
    exact of_decide_eq_true hp.2

/-- C7 witness: the fixture session is retrievable at time 5 and Not Found at
time 20 (ttl 10, last access 0). -/
theorem session_ttl_witness :
    (sysFixture.turns "s1" 5).1 = .ok (rtFixture "s1" "resp_001" 0).turns ∧
    (MedicalAgentSystem.state sysFixture "s1" 20).1 =
      .error ("Unknown session_id: " ++ "s1") :=
  ⟨(session_ttl sysFixture "s1" (rtFixture "s1" "resp_001" 0) 5).1
      ⟨rfl, by norm_num [sysFixture, rtFixture]⟩,
   (session_ttl sysFixture "s1" (rtFixture "s1" "resp_001" 0) 20).2.1
      ⟨rfl, by norm_num [sysFixture, rtFixture],
       by simp [nodup_keys, sysFixture]⟩⟩

/-- C8 (amended): `start_session` fails with the capacity error whenever,
after eager eviction, the live count is at or above `max_sessions`, and on
any failure no session is registered: the resulting session map equals the
pre-call map after eager eviction (not the pre-call map itself — evictions
performed on entry persist even when `start` fails). -/
theorem start_session_capacity (sys : MedicalAgentSystem)
    (fam : Option Nat → Nat → ℚ) (cid : String) (seed : Option Nat) (ν : ℚ)
    (prof : NoiseProfile) (k : Nat) (fid : String) (now : ℚ) :
    ((cleanup_expired sys now).sessions.length ≥ sys.max_sessions →
      start_session sys fam cid seed ν prof k fid now =
        (.error ("Maximum session limit (" ++ toString sys.max_sessions ++
            ") reached. Please close existing sessions first."),
         cleanup_expired sys now)) ∧
    (∀ e sys2, start_session sys fam cid seed ν prof k fid now = (.error e, sys2) →
      sys2.sessions = (cleanup_expired sys now).sessions) := by
  constructor
  · intro h
    simp only [start_session]
    rw [if_pos (show (cleanup_expired sys now).sessions.length ≥
      (cleanup_expired sys now).max_sessions from h)]
    rfl
  · intro e sys2 hrun
    simp only [start_session] at hrun
    by_cases hcap : (cleanup_expired sys now).sessions.length ≥
        (cleanup_expired sys now).max_sessions
    · rw [if_pos hcap] at hrun
      obtain ⟨-, h2⟩ := Prod.mk.injEq .. ▸ hrun
      rw [← h2]
    · rw [if_neg hcap] at hrun
      cases hre : (mkMedicalWorldModel fam seed ν prof).reset cid seed with
      | error e2 =>
          rw [hre] at hrun
          obtain ⟨-, h2⟩ := Prod.mk.injEq .. ▸ hrun
          rw [← h2]
      | ok wm2 =>
          rw [hre] at hrun
          obtain ⟨h1, -⟩ := Prod.mk.injEq .. ▸ hrun
          exact absurd h1 (by simp)

/-- C8 witness: at capacity 0 the fixture start fails with the capacity error
and leaves exactly the evicted map. -/
theorem start_session_capacity_witness :
    start_session sysCapFixture zStream "resp_001" none 0 NoiseProfile.empty
        3 "fresh" 10 =
      (.error ("Maximum session limit (" ++ toString sysCapFixture.max_sessions ++
          ") reached. Please close existing sessions first."),
       cleanup_expired sysCapFixture 10) :=
  (start_session_capacity sysCapFixture zStream "resp_001" none 0
    NoiseProfile.empty 3 "fresh" 10).1
    (by
      have hdec : (decide ((10 : ℚ) - 0 < 10)) = false :=
        decide_eq_false (by norm_num)
      simp [cleanup_expired, sysCapFixture, rtFixture, hdec])

/-- C8 counterexample: with one expired session and capacity 0, `start` fails
with the capacity error, yet the registry map afterwards (empty) is not the
pre-call map (one session) — failure is not free of side effects on the map,
because eager eviction persists. -/
theorem start_session_capacity_counterexample :
    (start_session sysCapFixture zStream "resp_001" none 0 NoiseProfile.empty
        3 "fresh" 10).1 =
      .error "Maximum session limit (0) reached. Please close existing sessions first." ∧
    (start_session sysCapFixture zStream "resp_001" none 0 NoiseProfile.empty
        3 "fresh" 10).2.sessions.length = 0 ∧
    sysCapFixture.sessions.length = 1 := by
  have hdec : (decide ((10 : ℚ) - 0 < 10)) = false :=
    decide_eq_false (by norm_num)
  have hcl : (cleanup_expired sysCapFixture 10).sessions = [] := by
    simp [cleanup_expired, sysCapFixture, rtFixture, hdec]
  have hstart : start_session sysCapFixture zStream "resp_001" none 0
      NoiseProfile.empty 3 "fresh" 10 =
      (.error "Maximum session limit (0) reached. Please close existing sessions first.",
       cleanup_expired sysCapFixture 10) := by
    simp only [start_session]
    rw [if_pos (show (cleanup_expired sysCapFixture 10).sessions.length ≥
      (cleanup_expired sysCapFixture 10).max_sessions by
        rw [hcl]; exact Nat.le_refl 0)]
    rfl
  refine ⟨by rw [hstart], by rw [hstart]; simp [hcl], rfl⟩

lemma mem_insertScored (a x : Nat × GuidelineSnippet)
    (l : List (Nat × GuidelineSnippet)) :
    a ∈ insertScored x l ↔ a = x ∨ a ∈ l := by
  induction l with
  | nil => simp [insertScored]
  | cons y ys ih =>
      by_cases h : y.1 ≤ x.1
      · simp [insertScored, h]
      · simp only [insertScored, if_neg h, List.mem_cons, ih]
        tauto

lemma pairwise_insertScored (x : Nat × GuidelineSnippet)
    (l : List (Nat × GuidelineSnippet))
    (h : List.Pairwise (fun a b => b.1 ≤ a.1) l) :
    List.Pairwise (fun a b => b.1 ≤ a.1) (insertScored x l) := by
  induction l with
  | nil => simp [insertScored]
  | cons y ys ih =>
      rcases List.pairwise_cons.mp h with ⟨hy, hys⟩
      by_cases hle : y.1 ≤ x.1
      · rw [insertScored, if_pos hle]
        refine List.pairwise_cons.mpr ⟨?_, h⟩
        intro z hz
        rcases List.mem_cons.mp hz with rfl | hz'
        · exact hle
        · exact le_trans (hy z hz') hle
      · rw [insertScored, if_neg hle]
        refine List.pairwise_cons.mpr ⟨?_, ih hys⟩
        intro z hz
        rcases (mem_insertScored z x ys).mp hz with rfl | hz'
        · exact le_of_lt (lt_of_not_le hle)
        · exact hy z hz'

lemma pairwise_sortScored (l : List (Nat × GuidelineSnippet)) :
    List.Pairwise (fun a b => b.1 ≤ a.1) (sortScored l) := by
  induction l with
  | nil => simp [sortScored]
  | cons x xs ih => exact pairwise_insertScored x (sortScored xs) ih

lemma mem_sortScored (a : Nat × GuidelineSnippet)
    (l : List (Nat × GuidelineSnippet)) (h : a ∈ sortScored l) : a ∈ l := by
  induction l with
  | nil => simp [sortScored] at h
  | cons x xs ih =>
      rcases (mem_insertScored a x (sortScored xs)).mp h with rfl | h'
      · exact List.mem_cons_self _ _
      · exact List.mem_cons_of_mem _ (ih h')

lemma filter_insertScored (x : Nat × GuidelineSnippet)
    (l : List (Nat × GuidelineSnippet)) (v : Nat) :
    (insertScored x l).filter (fun z => decide (z.1 = v)) =
      if x.1 = v then x :: l.filter (fun z => decide (z.1 = v))
      else l.filter (fun z => decide (z.1 = v)) := by
  induction l with
  | nil =>
      by_cases hx : x.1 = v <;> simp [insertScored, List.filter_cons, hx]
  | cons y ys ih =>
      by_cases hle : y.1 ≤ x.1
      · rw [insertScored, if_pos hle]
        by_cases hx : x.1 = v <;> simp [List.filter_cons, hx]
      · rw [insertScored, if_neg hle]
        by_cases hx : x.1 = v
        · have hyv : ¬ y.1 = v := fun hy => hle (le_of_eq (hy.trans hx.symm))
          simp [List.filter_cons, ih, hx, hyv]
        · simp [List.filter_cons, ih, hx]

lemma filter_sortScored (l : List (Nat × GuidelineSnippet)) (v : Nat) :
    (sortScored l).filter (fun z => decide (z.1 = v)) =
      l.filter (fun z => decide (z.1 = v)) := by
  induction l with
  | nil => simp [sortScored]
  | cons x xs ih =>
      rw [sortScored, filter_insertScored]
      by_cases hx : x.1 = v <;> simp [List.filter_cons, hx, ih]

lemma foldl_max_const (a : Nat) (ys : List Nat) (h : ∀ y ∈ ys, y ≤ a) :
    ys.foldl max a = a := by
  induction ys with
  | nil => rfl
  | cons y ys ih =>
      rw [List.foldl_cons, max_eq_left (h y (List.mem_cons_self y ys))]
      exact ih (fun z hz => h z (List.mem_cons_of_mem _ hz))

lemma natMaxList_of_sorted (x : Nat × GuidelineSnippet)
    (xs : List (Nat × GuidelineSnippet))
    (h : List.Pairwise (fun a b => b.1 ≤ a.1) (x :: xs)) :
    natMaxList ((x :: xs).map (fun p => p.1)) = x.1 := by
  rcases List.pairwise_cons.mp h with ⟨hx, -⟩
  unfold natMaxList
  rw [List.map_cons, List.foldl_cons, max_eq_right (Nat.zero_le x.1)]
  exact foldl_max_const x.1 _ (by
    intro y hy
    rcases List.mem_map.mp hy with ⟨p, hp, rfl⟩
    exact hx p hp)

lemma scoredDocs_pos (docs : List GuidelineSnippet) (terms : List String)
    (z : Nat × GuidelineSnippet) (h : z ∈ scoredDocs docs terms) : 0 < z.1 := by
  unfold scoredDocs at h
  rcases List.mem_filterMap.mp h with ⟨d, -, hd⟩
  by_cases hs : 0 < docScore terms d
  · rw [if_pos hs] at hd
    obtain rfl := Option.some.inj hd
    exact hs
  · rw [if_neg hs] at hd
    cases hd

lemma retrieve_eq_nil_of_empty_query (docs : List GuidelineSnippet)
    (query : String) (k : Nat) (h : tokenize query = []) :
    retrieve docs query k = [] := by
  simp [retrieve, h]

lemma retrieve_eq_nil_of_empty_sel (docs : List GuidelineSnippet)
    (query : String) (k : Nat)
    (h : ((sortScored (scoredDocs docs (tokenize query))).take (max 1 k)) = []) :
    retrieve docs query k = [] := by
  unfold retrieve
  cases he : (tokenize query).isEmpty with
  | true => simp [he]
  | false => simp [he, h]

lemma retrieve_eq_map (docs : List GuidelineSnippet) (query : String) (k : Nat)
    (hq : (tokenize query).isEmpty = false)
    (hsel : ((sortScored (scoredDocs docs (tokenize query))).take (max 1 k)) ≠ []) :
    retrieve docs query k =
      ((sortScored (scoredDocs docs (tokenize query))).take (max 1 k)).map
        (fun p =>
          { snippet := p.2
            score := p.1
            confidence := round3 ((p.1 : ℚ) /
              ((max 1 (natMaxList
                (((sortScored (scoredDocs docs (tokenize query))).take
                  (max 1 k)).map (fun p => p.1))) : Nat) : ℚ)) }) := by
  unfold retrieve
  simp only [hq, Bool.false_eq_true, if_false, ite_false]
  rw [if_neg (by simpa [List.isEmpty_iff] using hsel)]

/-- C9: `retrieve` keeps only positive-score documents, sorts them by score
descending preserving corpus order on ties, takes the first `max 1 top_k`,
scales each confidence by the maximum selected score (so a nonempty result's
top hit has confidence 1.0), and returns nothing for an empty query or when
no document scores above zero. -/
theorem retrieve_ranking (docs : List GuidelineSnippet) (query : String)
    (k : Nat) :
    (tokenize query = [] → retrieve docs query k = []) ∧
    ((∀ d ∈ docs, docScore (tokenize query) d = 0) →
      retrieve docs query k = []) ∧
    (retrieve docs query k).length ≤ max 1 k ∧
    (∀ h ∈ retrieve docs query k, 0 < h.score) ∧
    List.Pairwise (fun a b => b.score ≤ a.score) (retrieve docs query k) ∧
    (∀ hne : retrieve docs query k ≠ [],
      ((retrieve docs query k).head hne).confidence = 1) ∧
    (∀ v, (sortScored (scoredDocs docs (tokenize query))).filter
        (fun z => decide (z.1 = v)) =
      (scoredDocs docs (tokenize query)).filter (fun z => decide (z.1 = v))) := by
  by_cases hterm : tokenize query = []
  · have hr := retrieve_eq_nil_of_empty_query docs query k hterm
    refine ⟨fun _ => hr, fun _ => hr, by simp [hr], by simp [hr], by simp [hr],
      ?_, fun v => filter_sortScored _ v⟩
    intro hne
    exact absurd hr hne
  · have hq : (tokenize query).isEmpty = false := by
      simpa [List.isEmpty_iff] using hterm
    cases hselc : (sortScored (scoredDocs docs (tokenize query))).take (max 1 k) with
    | nil =>
        have hr := retrieve_eq_nil_of_empty_sel docs query k hselc
        refine ⟨fun _ => hr, fun _ => hr, by simp [hr], by simp [hr],
          by simp [hr], ?_, fun v => filter_sortScored _ v⟩
        intro hne
        exact absurd hr hne
    | cons p rest =>
        have hsel_ne : (sortScored (scoredDocs docs (tokenize query))).take
            (max 1 k) ≠ [] := by
          rw [hselc]
          simp
        have hr := retrieve_eq_map docs query k hq hsel_ne
        have hpair_sel : List.Pairwise (fun a b => b.1 ≤ a.1)
            ((sortScored (scoredDocs docs (tokenize query))).take (max 1 k)) :=
          List.Pairwise.sublist (List.take_sublist _ _) (pairwise_sortScored _)
        have hmem_S : ∀ z ∈ (sortScored (scoredDocs docs (tokenize query))).take
            (max 1 k), z ∈ scoredDocs docs (tokenize query) := by
          intro z hz
          exact mem_sortScored z _ (List.take_subset _ _ hz)
        refine ⟨fun h0 => absurd h0 hterm, ?_, ?_, ?_, ?_, ?_,
          fun v => filter_sortScored _ v⟩
        · intro hzero
          have hS : scoredDocs docs (tokenize query) = [] := by
            apply List.filterMap_eq_nil_iff.mpr
            intro d hd
            simp [scoredDocs, hzero d hd]
          rw [hS] at hselc
          simp [sortScored] at hselc
        · rw [hr]
          simp only [List.length_map, List.length_take]
          exact min_le_left _ _
        · intro h hmem
          rw [hr] at hmem
          rcases List.mem_map.mp hmem with ⟨z, hz, rfl⟩
          exact scoredDocs_pos docs (tokenize query) z (hmem_S z hz)
        · rw [hr, List.pairwise_map]
          exact hpair_sel
        · intro hne
          rw [hselc] at hr
          have hpair2 : List.Pairwise (fun a b => b.1 ≤ a.1) (p :: rest) :=
            hselc ▸ hpair_sel
          have hp_pos : 0 < p.1 := scoredDocs_pos docs (tokenize query) p
            (hmem_S p (by rw [hselc]; exact List.mem_cons_self _ _))
          have hmax : natMaxList ((p :: rest).map (fun p => p.1)) = p.1 :=
            natMaxList_of_sorted p rest hpair2
          rw [List.map_cons] at hmax
          simp only [hr, List.map_cons, List.head_cons]
          rw [hmax, Nat.max_eq_right hp_pos]
          rw [div_self (by
            exact_mod_cast Nat.pos_iff_ne_zero.mp hp_pos)]
          norm_num [round3]

/-- C9 witness: an empty query yields no hit, and a query bounded by the
selection size. -/
theorem retrieve_ranking_witness :
    tokenize "" = [] ∧ retrieve default_corpus "" 3 = [] ∧
    (retrieve default_corpus "troponin 再灌注" 3).length ≤ max 1 3 :=
  ⟨rfl, (retrieve_ranking default_corpus "" 3).1 rfl,
   (retrieve_ranking default_corpus "troponin 再灌注" 3).2.2.1⟩

/-- An initialized world model executes every action without error and stays
initialized. -/
lemma step_ok_of_initialized (wm : MedicalWorldModel) (st : PatientState)
    (c : PatientCase) (a : ToolAction) (hst : wm.state = some st)
    (hc : wm.currentCase = some c) :
    ∃ res wm' latest, wm.step a = .ok (res, wm') ∧ wm'.state = some latest := by
  cases a with
  | ask_question q =>
      exact ⟨_, _, _, step_ask_eq wm st c q hst hc, rfl⟩
  | order_test t =>
      exact ⟨_, _, _, step_order_eq wm st c t hst hc, rfl⟩
  | recommend_plan d =>
      exact ⟨_, _, _, step_recommend_eq wm st c d hst hc, rfl⟩

/-- The per-session chat body on an initialized runtime: it always returns a
composed turn and the runtime with that turn appended. -/
lemma chatTurn_ok (rt : SessionRuntime) (msg : String) (st0 : PatientState)
    (c0 : PatientCase) (hst : rt.world_model.state = some st0)
    (hc : rt.world_model.currentCase = some c0) :
    ∃ turn rt2 res wm' latest,
      rt.world_model.step (DiagnosticAgent.choose_action st0 msg) = .ok (res, wm') ∧
      wm'.state = some latest ∧
      chatTurn rt msg = .ok (turn, rt2) ∧
      rt2.turns = rt.turns ++ [turn] ∧
      rt2.world_model = wm' ∧
      turn.tool_result = res ∧
      turn.diagnosis = DiagnosticAgent.infer_diagnosis latest ∧
      turn.evidence_chain = DiagnosticAgent.build_evidence_chain latest turn.diagnosis ∧
      turn.diagnosis_confidence = DiagnosticAgent.estimate_confidence latest
        turn.diagnosis
        (guideline_refs_of rt.retrieverDocs rt.evidence_top_k latest turn.diagnosis).2 ∧
      (turn.escalate_to_human, turn.refusal, turn.refusal_reason) =
        SafetyAgent.handoff_decision turn.diagnosis turn.emergency
          turn.dangerous_miss turn.diagnosis_confidence := by
  have hget : rt.world_model.get_state = .ok st0 := by
    unfold MedicalWorldModel.get_state
    rw [hst]
  obtain ⟨res, wm', latest, hstep, hlatest⟩ :=
    step_ok_of_initialized rt.world_model st0 c0
      (DiagnosticAgent.choose_action st0 msg) hst hc
  have hget2 : wm'.get_state = .ok latest := by
    unfold MedicalWorldModel.get_state
    rw [hlatest]
  cases hch : chatTurn rt msg with
  | error e =>
      have hch1 := hch
      simp only [chatTurn, hget, hstep, hget2] at hch1
      exact absurd hch1 (by simp)
  | ok pr =>
      obtain ⟨turn, rt2⟩ := pr
      have hch1 := hch
      simp only [chatTurn, hget, hstep, hget2] at hch1
      obtain ⟨h1, h2⟩ := Prod.mk.injEq .. ▸ (Except.ok.inj hch1)
      refine ⟨turn, rt2, res, wm', latest, hstep, hlatest, rfl,
        ?_, ?_, ?_, ?_, ?_, ?_, ?_⟩
      · rw [← h2, ← h1]
      · rw [← h2]
      · rw [← h1]
      · rw [← h1]
      · rw [← h1]
      · rw [← h1]
      · rw [← h1]

/-- C1: for a registered, non-expired session (with its world model
initialized, as `start_session` guarantees), `chat` returns a composed Turn
Result — carrying the inferred diagnosis, its evidence chain, the blended
diagnosis confidence and the escalate/refusal decision with its reason — and
appends exactly that Turn Result to the session's turn history.  The
evidence-chain, confidence and handoff components are modelled from the spec
because their methods are missing from src/. -/
theorem chat_composes_and_appends (sys : MedicalAgentSystem) (sid msg : String)
    (now : ℚ) (rt : SessionRuntime) (st0 : PatientState) (c0 : PatientCase)
    (hfind : dictGet? sys.sessions sid = some rt)
    (hfresh : now - rt.last_accessed_at < sys.session_ttl_seconds)
    (hst : rt.world_model.state = some st0)
    (hc : rt.world_model.currentCase = some c0) :
    ∃ turn sys2 rt2,
      chat sys sid msg now = (.ok turn, sys2) ∧
      dictGet? sys2.sessions sid = some rt2 ∧
      rt2.turns = rt.turns ++ [turn] ∧
      ∃ res wm' latest,
        rt.world_model.step (DiagnosticAgent.choose_action st0 msg) =
          .ok (res, wm') ∧
        wm'.state = some latest ∧
        turn.tool_result = res ∧
        turn.diagnosis = DiagnosticAgent.infer_diagnosis latest ∧
        turn.evidence_chain =
          DiagnosticAgent.build_evidence_chain latest turn.diagnosis ∧
        turn.diagnosis_confidence = DiagnosticAgent.estimate_confidence latest
          turn.diagnosis
          (guideline_refs_of rt.retrieverDocs rt.evidence_top_k latest
            turn.diagnosis).2 ∧
        (turn.escalate_to_human, turn.refusal, turn.refusal_reason) =
          SafetyAgent.handoff_decision turn.diagnosis turn.emergency
            turn.dangerous_miss turn.diagnosis_confidence := by
  have hlook : dictGet? (cleanup_expired sys now).sessions sid = some rt := by
    simp only [cleanup_expired]
    exact dictGet?_filter_keep sys.sessions sid rt
      (fun p => decide (now - p.2.last_accessed_at < sys.session_ttl_seconds))
      hfind (decide_eq_true hfresh)
  obtain ⟨turn, rt2, res, wm', latest, hstep, hlatest, hch, hturns, hwm,
    hres, hdiag, hev, hconf, hhd⟩ :=
    chatTurn_ok { rt with last_accessed_at := now } msg st0 c0 hst hc
  refine ⟨turn,
    { sessions := dictInsert (dictInsert (cleanup_expired sys now).sessions sid
        { rt with last_accessed_at := now }) sid rt2
      session_ttl_seconds := (cleanup_expired sys now).session_ttl_seconds
      max_sessions := (cleanup_expired sys now).max_sessions },
    rt2, ?_, ?_, ?_, res, wm', latest, hstep, hlatest,
    hres, hdiag, hev, hconf, hhd⟩
  · simp only [chat, hlook, hch]
  · exact dictGet?_dictInsert_self _ _ _
  · exact hturns

/-- C1 witness: one chat turn on the registered respiratory fixture session
at time 5. -/
theorem chat_composes_and_appends_witness :
    ∃ turn sys2 rt2,
      chat sysFixture "s1" "请总结" 5 = (.ok turn, sys2) ∧
      dictGet? sys2.sessions "s1" = some rt2 ∧
      rt2.turns = (rtFixture "s1" "resp_001" 0).turns ++ [turn] ∧
      ∃ res wm' latest,
        (rtFixture "s1" "resp_001" 0).world_model.step
          (DiagnosticAgent.choose_action
            ((rtFixture "s1" "resp_001" 0).world_model.state.getD emptyState)
            "请总结") = .ok (res, wm') ∧
        wm'.state = some latest ∧
        turn.tool_result = res ∧
        turn.diagnosis = DiagnosticAgent.infer_diagnosis latest ∧
        turn.evidence_chain =
          DiagnosticAgent.build_evidence_chain latest turn.diagnosis ∧
        turn.diagnosis_confidence = DiagnosticAgent.estimate_confidence latest
          turn.diagnosis
          (guideline_refs_of (rtFixture "s1" "resp_001" 0).retrieverDocs
            (rtFixture "s1" "resp_001" 0).evidence_top_k latest
            turn.diagnosis).2 ∧
        (turn.escalate_to_human, turn.refusal, turn.refusal_reason) =
          SafetyAgent.handoff_decision turn.diagnosis turn.emergency
            turn.dangerous_miss turn.diagnosis_confidence :=
  chat_composes_and_appends sysFixture "s1" "请总结" 5
    (rtFixture "s1" "resp_001" 0)
    ((rtFixture "s1" "resp_001" 0).world_model.state.getD emptyState)
    ((rtFixture "s1" "resp_001" 0).world_model.currentCase.getD emptyCase)
    rfl (by norm_num [sysFixture, rtFixture]) rfl rfl
